import Mathlib

/-!
# Verification of the `no-unsafe-any` detection engine

Shallow embedding of `packages/eslint-plugin/src/rules/no-unsafe-any.ts`.

The rule registers esquery-selector handlers on an ESTree-shaped syntax
tree; every handler consults the TypeScript type checker through the two
adapter predicates `isAnyType` / `isAnyArrayType` and reports diagnostics
`{node, messageId, data}` through `context.report`.

Modelling decisions (each justified at its definition):
* The type checker is abstracted as a *type oracle* mapping a type-query
  position (`tid : Nat`, one per syntax node the rule ever queries) to one
  of three descriptors: `Concrete`, `Dynamic` (a type with the
  `ts.TypeFlags.Any` flag set), `DynamicArray` (an array type whose single
  type argument is flagged `Any`).  In TypeScript a type cannot both carry
  the `Any` flag and be an array type reference, so the two source
  predicates `isAnyType` and `isAnyArrayType` are mutually exclusive and
  the three-valued descriptor is faithful.
* ESTree nodes are embedded as inductives carrying exactly the fields the
  rule reads; diagnostics are anchored at the embedded node values.
* A thrown JavaScript exception (e.g. a `TypeError` from dereferencing a
  `null` array-pattern element) aborts the whole ESLint traversal; the
  traversal therefore returns `Except Unit (List Diagnostic)` with
  `.error ()` for an aborted run.
-/

namespace NoUnsafeAny

/-- The three-valued classification the rule extracts from the checker:
`Dynamic` models a type with `ts.TypeFlags.Any`, `DynamicArray` models
`any[]` / `readonly any[]`, and `Concrete` everything else. -/
inductive TypeDescriptor where
  | Concrete
  | Dynamic
  | DynamicArray
  deriving DecidableEq, Repr

/-- The type oracle: resolves the type-query id of a syntax node to its
`TypeDescriptor` (models `checker.getTypeAtLocation` composed with the
flag tests done by the rule's adapter functions). -/
def Oracle : Type := Nat → TypeDescriptor

/-- The rule's options object (`Options` in the source): a single boolean,
defaulting to `false`. -/
structure Options where
  allowVariableAnnotationFromAny : Bool
  deriving DecidableEq, Repr

/-- The `MessageIds` union of the source: exactly 14 message identifiers. -/
inductive MessageId where
  | typeReferenceResolvesToAny
  | variableDeclarationInitialisedToAnyWithoutAnnotation
  | variableDeclarationInitialisedToAnyWithAnnotation
  | patternVariableDeclarationInitialisedToAny
  | letVariableInitialisedToNullishAndNoAnnotation
  | letVariableWithNoInitialAndNoAnnotation
  | loopVariableInitialisedToAny
  | returnAny
  | passedArgumentIsAny
  | assignmentValueIsAny
  | updateExpressionIsAny
  | booleanTestIsAny
  | switchDiscriminantIsAny
  | switchCaseTestIsAny
  deriving DecidableEq, Repr

/-- `isAnyType` of the source: the resolved type has the `Any` flag. -/
def isAnyType (oracle : Oracle) (tid : Nat) : Bool :=
  oracle tid = TypeDescriptor.Dynamic

/-- `isAnyArrayType` of the source: the resolved type is an array type
reference whose element type has the `Any` flag. -/
def isAnyArrayType (oracle : Oracle) (tid : Nat) : Bool :=
  oracle tid = TypeDescriptor.DynamicArray

/-- `isAnyOrAnyArrayType` of the source. -/
def isAnyOrAnyArrayType (oracle : Oracle) (tid : Nat) : Bool :=
  isAnyType oracle tid || isAnyArrayType oracle tid

/-- TypeScript type-annotation syntax (`TSESTree.TypeNode`), restricted to
what the rule inspects: the `TSUnknownKeyword` test in
`reportVariableDeclarationInitialisedToAny`, and `TSTypeReference` nodes
(which the `TSTypeReference` handler fires on; `typeName` carries the
source text the handler reads via `sourceCode.getText`). -/
inductive TSTypeNode where
  | tsUnknownKeyword
  | tsTypeReference (typeName : String) (tid : Nat) (typeArgs : List TSTypeNode)
  | tsOther (children : List TSTypeNode)
  deriving Repr

mutual
/-- A destructuring-position node as walked by `checkDestructuringPattern`:
`objectPattern` / `arrayPattern` are recursed into; every other node kind
(`Identifier`, `AssignmentPattern`, `MemberExpression`, `RestElement`, ...)
falls into the source's `else` branch, which only queries the node's type,
so it is embedded as `leaf` carrying just the type-query id.  An elision
(hole) in an array pattern is a `none` element, exactly as in ESTree. -/
inductive DPat where
  | objectPattern (properties : List ObjProp)
  | arrayPattern (elements : List (Option DPat))
  | leaf (tid : Nat)
  deriving Repr

/-- A property of an object pattern: a `Property` node (whose `value` holds
the nested pattern) or a `RestElement` (which has no `value` field, so the
source's `prop.value ?? prop` recurses on the rest element itself; its
type-query id is all the recursion then reads). -/
inductive ObjProp where
  | property (value : DPat)
  | restElement (tid : Nat)
  deriving Repr
end

mutual
/-- Expressions, restricted to the node kinds the rule's handlers match or
inspect; every expression carries the type-query id of its node.
`identifier` keeps its name for `util.isUndefinedIdentifier`;
`nullLiteral` is separate for `util.isNullLiteral`. -/
inductive Expr where
  | identifier (name : String) (tid : Nat)
  | nullLiteral (tid : Nat)
  | otherLiteral (tid : Nat)
  | arrayExpression (elements : List Expr) (tid : Nat)
  | callExpression (callee : Expr) (arguments : List Expr) (tid : Nat)
  | assignmentExpression (left : Expr) (right : Expr) (tid : Nat)
  | updateExpression (argument : Expr) (tid : Nat)
  | conditionalExpression (test : Expr) (consequent : Expr) (alternate : Expr) (tid : Nat)
  | arrowFunctionExpression (body : ArrowBody) (tid : Nat)
  deriving Repr

/-- Body of an arrow function: a block (`BlockStatement`, with the
type-query id of the block node — the handler for the rule's
`ArrowFunctionExpression > :not(TSESTree.BlockStatement).body` selector
queries it, see `runExpr`) or a bare expression. -/
inductive ArrowBody where
  | blockBody (body : List Stmt) (tid : Nat)
  | exprBody (e : Expr)
  deriving Repr

/-- A `VariableDeclarator`: its binding (`id`), the binding's optional type
annotation (`id.typeAnnotation` in ESTree), the optional initialiser, and
the declarator node's own type-query id (queried by the `ForOfStatement`
handler). -/
inductive Declarator where
  | mk (id : DPat) (typeAnnot : Option TSTypeNode) (init : Option Expr) (tid : Nat)
  deriving Repr

/-- A `SwitchCase`: optional test (absent for `default:`) and body. -/
inductive SwitchCase where
  | mk (test : Option Expr) (body : List Stmt)
  deriving Repr

/-- Statements, restricted to the node kinds the rule's handlers match.
`forOfStatement` keeps only the declaration form of its left-hand side
(the only form the `ForOfStatement > VariableDeclaration.left >
VariableDeclarator` selector can match). -/
inductive Stmt where
  | variableDeclaration (kind : DeclKind) (declarations : List Declarator)
  | expressionStatement (e : Expr)
  | returnStatement (argument : Option Expr)
  | ifStatement (test : Expr) (consequent : Stmt) (alternate : Option Stmt)
  | whileStatement (test : Expr) (body : Stmt)
  | doWhileStatement (body : Stmt) (test : Expr)
  | forOfStatement (kind : DeclKind) (declarations : List Declarator) (right : Expr) (body : Stmt)
  | switchStatement (discriminant : Expr) (cases : List SwitchCase)
  | blockStatement (body : List Stmt)
  | emptyStatement
  deriving Repr

/-- The declaration keyword of a `VariableDeclaration`. -/
inductive DeclKind where
  | kconst
  | klet
  | kvar
  deriving Repr
end

/-- The string ESLint interpolates for `parent.kind`. -/
def DeclKind.text : DeclKind → String
  | .kconst => "const"
  | .klet => "let"
  | .kvar => "var"

/-- The `:matches([kind = "let"], [kind = "var"])` selector test. -/
def DeclKind.isLetOrVar : DeclKind → Bool
  | .kconst => false
  | .klet => true
  | .kvar => true

/-- The binding pattern of a declarator (field accessor). -/
def Declarator.id : Declarator → DPat
  | .mk i _ _ _ => i

/-- The optional type annotation on the declarator's binding. -/
def Declarator.typeAnnot : Declarator → Option TSTypeNode
  | .mk _ a _ _ => a

/-- The optional initialiser of the declarator. -/
def Declarator.init : Declarator → Option Expr
  | .mk _ _ i _ => i

/-- The type-query id of the declarator node itself. -/
def Declarator.tid : Declarator → Nat
  | .mk _ _ _ t => t

/-- The type-query id of an expression node. -/
def Expr.tid : Expr → Nat
  | .identifier _ t => t
  | .nullLiteral t => t
  | .otherLiteral t => t
  | .arrayExpression _ t => t
  | .callExpression _ _ t => t
  | .assignmentExpression _ _ t => t
  | .updateExpression _ t => t
  | .conditionalExpression _ _ _ t => t
  | .arrowFunctionExpression _ t => t

/-- `util.isNullLiteral`: a `Literal` node whose value is `null`. -/
def isNullLiteral : Expr → Bool
  | .nullLiteral _ => true
  | _ => false

/-- `util.isUndefinedIdentifier`: an `Identifier` named `undefined`. -/
def isUndefinedIdentifier : Expr → Bool
  | .identifier n _ => n == "undefined"
  | _ => false

/-- Whether an expression is an empty array literal — the shape matched by
the `ArrayExpression[elements.length = 0].init` selector. -/
def isEmptyArrayLiteral : Expr → Bool
  | .arrayExpression [] _ => true
  | _ => false

/-- The anchor node of a diagnostic (`node:` argument to `context.report`). -/
inductive Anchor where
  | declarator (d : Declarator)
  | expr (e : Expr)
  | pat (p : DPat)
  | stmt (s : Stmt)
  | arrowBody (b : ArrowBody)
  | switchCase (c : SwitchCase)
  | typeRef (typeName : String) (tid : Nat)
  deriving Repr

/-- One report: anchor node, message id, interpolation data. -/
structure Diagnostic where
  anchor : Anchor
  messageId : MessageId
  data : List (String × String)
  deriving Repr

/-- The `node.id.typeAnnotation.typeAnnotation.type ===
AST_NODE_TYPES.TSUnknownKeyword` test of the source. -/
def isUnknownAnnotation : TSTypeNode → Bool
  | TSTypeNode.tsUnknownKeyword => true
  | _ => false

/-- `reportVariableDeclarationInitialisedToAny` of the source, lines
107–135: given a declarator whose initialiser resolved to `any`/`any[]`,
pick (at most) one of the two declaration diagnostics depending on the
annotation and the `allowVariableAnnotationFromAny` option. -/
def reportVariableDeclarationInitialisedToAny (opts : Options)
    (node : Declarator) : List Diagnostic :=
  match node.typeAnnot with
  | none =>
    [⟨Anchor.declarator node,
      MessageId.variableDeclarationInitialisedToAnyWithoutAnnotation, []⟩]
  | some ann =>
    -- there is a type annotation
    if opts.allowVariableAnnotationFromAny then
      -- the user indicated they are okay with the unsafe conversion
      []
    else if isUnknownAnnotation ann then
      -- annotation with unknown is as safe as can be
      []
    else
      [⟨Anchor.declarator node,
        MessageId.variableDeclarationInitialisedToAnyWithAnnotation, []⟩]

mutual
/-- `checkDestructuringPattern` of the source, lines 137–155.  The
argument is an `Option DPat` because an array pattern's `elements` array
contains `null` for an elision, and the source passes the element to the
recursive call unchecked; on `null` the very first test `node.type === ...`
dereferences `null` and throws a `TypeError`, aborting the traversal —
embedded as `.error ()`. -/
def checkDestructuringPattern (oracle : Oracle) :
    Option DPat → Except Unit (List Diagnostic)
  | none => Except.error ()
  | some (DPat.objectPattern props) => checkDestructuringProps oracle props
  | some (DPat.arrayPattern els) => checkDestructuringElements oracle els
  | some (DPat.leaf tid) =>
    if isAnyOrAnyArrayType oracle tid then
      Except.ok [⟨Anchor.pat (DPat.leaf tid),
        MessageId.patternVariableDeclarationInitialisedToAny, []⟩]
    else
      Except.ok []
  termination_by p => sizeOf p

/-- The `node.properties.forEach(prop => checkDestructuringPattern(prop.value ?? prop))`
loop: a `Property` recurses on its `value`; a `RestElement` has no `value`
field, so `?? prop` recurses on the rest element itself, which lands in the
source's `else` branch and queries the rest element's own type — i.e. it
behaves as a `leaf` with the rest element's type-query id. -/
def checkDestructuringProps (oracle : Oracle) :
    List ObjProp → Except Unit (List Diagnostic)
  | [] => Except.ok []
  | ObjProp.property v :: rest => do
    let ds ← checkDestructuringPattern oracle (some v)
    let rest ← checkDestructuringProps oracle rest
    pure (ds ++ rest)
  | ObjProp.restElement tid :: rest => do
    -- the recursive call on the rest element reaches the `else` branch of
    -- `checkDestructuringPattern`, i.e. behaves exactly as on a leaf with
    -- the rest element's type-query id; written out here for termination
    let ds :=
      if isAnyOrAnyArrayType oracle tid then
        [⟨Anchor.pat (DPat.leaf tid),
          MessageId.patternVariableDeclarationInitialisedToAny, []⟩]
      else []
    let rest ← checkDestructuringProps oracle rest
    pure (ds ++ rest)
  termination_by ps => sizeOf ps

/-- The `node.elements.forEach(el => checkDestructuringPattern(el))` loop;
`el` is passed through unchecked, elisions included. -/
def checkDestructuringElements (oracle : Oracle) :
    List (Option DPat) → Except Unit (List Diagnostic)
  | [] => Except.ok []
  | el :: rest => do
    let ds ← checkDestructuringPattern oracle el
    let rest ← checkDestructuringElements oracle rest
    pure (ds ++ rest)
  termination_by els => sizeOf els
end

/-- The `TSTypeReference` handler, lines 163–177: report when the
referenced type resolves to `any` (scalar check only), carrying the
reference's source text as `typeName`. -/
def tsTypeReferenceHandler (oracle : Oracle) (typeName : String) (tid : Nat) :
    List Diagnostic :=
  if isAnyType oracle tid then
    [⟨Anchor.typeRef typeName tid, MessageId.typeReferenceResolvesToAny,
      [("typeName", typeName)]⟩]
  else []

mutual
/-- Pre-order walk of a type-annotation subtree, firing the
`TSTypeReference` handler on every type-reference node. -/
def runTypeNode (oracle : Oracle) : TSTypeNode → List Diagnostic
  | TSTypeNode.tsUnknownKeyword => []
  | TSTypeNode.tsTypeReference name tid args =>
    tsTypeReferenceHandler oracle name tid ++ runTypeNodes oracle args
  | TSTypeNode.tsOther children => runTypeNodes oracle children
  termination_by t => sizeOf t

/-- Walk of a list of type nodes, in source order. -/
def runTypeNodes (oracle : Oracle) : List TSTypeNode → List Diagnostic
  | [] => []
  | t :: rest => runTypeNode oracle t ++ runTypeNodes oracle rest
  termination_by ts => sizeOf ts
end

/-- The diagnostics of the two `VariableDeclaration:matches([kind = "let"],
[kind = "var"]) > VariableDeclarator...` handlers (lines 183–224), which
fire at the declarator node: `letVariableWithNoInitialAndNoAnnotation` for
a declarator without initialiser, `letVariableInitialisedToNullishAndNoAnnotation`
for one whose initialiser is literally `null` or the `undefined`
identifier; both bail out if the binding has a type annotation, and both
interpolate the declaration keyword. -/
def letDeclaratorHandlers (kind : DeclKind) (d : Declarator) : List Diagnostic :=
  if !kind.isLetOrVar then []
  else
    match d.init with
    | none =>
      if d.typeAnnot.isSome then []
      else
        [⟨Anchor.declarator d, MessageId.letVariableWithNoInitialAndNoAnnotation,
          [("kind", kind.text)]⟩]
    | some e =>
      if d.typeAnnot.isSome then []
      else if isNullLiteral e || isUndefinedIdentifier e then
        [⟨Anchor.declarator d, MessageId.letVariableInitialisedToNullishAndNoAnnotation,
          [("kind", kind.text)]⟩]
      else []

/-- The `ForOfStatement > VariableDeclaration.left > VariableDeclarator`
handler, lines 306–316: the declarator node's own type is queried. -/
def forOfDeclaratorHandler (oracle : Oracle) (d : Declarator) : List Diagnostic :=
  if isAnyOrAnyArrayType oracle d.tid then
    [⟨Anchor.declarator d, MessageId.loopVariableInitialisedToAny, []⟩]
  else []

/-- The three `... > VariableDeclarator[init] > (Identifier|ObjectPattern|
ArrayPattern).id` handlers (lines 230–300), which fire when the traversal
enters the declarator's binding node.  For an identifier binding the
initialiser's type is tested and
`reportVariableDeclarationInitialisedToAny` dispatched; for a
destructuring binding, an overall-`any` initialiser is reported once for
the declaration, otherwise `checkDestructuringPattern` walks the pattern
(and may abort on an elision). -/
def declaratorIdHandler (opts : Options) (oracle : Oracle) (d : Declarator) :
    Except Unit (List Diagnostic) :=
  match d.init with
  | none => Except.ok []    -- all three selectors require `[init]`
  | some init =>
    match d.id with
    | DPat.leaf _ =>
      if !isAnyType oracle init.tid && !isAnyArrayType oracle init.tid then
        Except.ok []
      else
        Except.ok (reportVariableDeclarationInitialisedToAny opts d)
    | DPat.objectPattern _ =>
      if isAnyOrAnyArrayType oracle init.tid then
        -- the entire init value is any, so report the entire declaration
        Except.ok (reportVariableDeclarationInitialisedToAny opts d)
      else
        checkDestructuringPattern oracle (some d.id)
    | DPat.arrayPattern _ =>
      if isAnyOrAnyArrayType oracle init.tid then
        Except.ok (reportVariableDeclarationInitialisedToAny opts d)
      else
        checkDestructuringPattern oracle (some d.id)

/-- The `VariableDeclaration > VariableDeclarator >
ArrayExpression[elements.length = 0].init` handler, lines 251–266: fires
when the traversal enters an initialiser that is an empty array literal;
reports the declarator unless the binding has a type annotation (in which
case nothing — there is no way to fix the type without an annotation, so
`variableDeclarationInitialisedToAnyWithAnnotation` is not reported). -/
def emptyArrayInitHandler (d : Declarator) : List Diagnostic :=
  match d.init with
  | some e =>
    if isEmptyArrayLiteral e then
      if d.typeAnnot.isSome then []
      else
        [⟨Anchor.declarator d,
          MessageId.variableDeclarationInitialisedToAnyWithoutAnnotation, []⟩]
    else []
  | none => []

/-- The `CallExpression[arguments.length > 0]` handler body, lines
354–367: one report per argument whose type is `any`/`any[]`, anchored at
that argument, in argument order (the source's `for (const argument of
node.arguments)` loop). -/
def callArgumentsHandler (oracle : Oracle) (arguments : List Expr) :
    List Diagnostic :=
  arguments.filterMap fun argument =>
    if isAnyOrAnyArrayType oracle argument.tid then
      some ⟨Anchor.expr argument, MessageId.passedArgumentIsAny, []⟩
    else none

/-- The `UpdateExpression` handler, lines 388–397: only the scalar
`isAnyType` test, anchored at the whole update expression. -/
def updateExpressionHandler (oracle : Oracle) (argument : Expr) (tid : Nat) :
    List Diagnostic :=
  if isAnyType oracle argument.tid then
    [⟨Anchor.expr (Expr.updateExpression argument tid),
      MessageId.updateExpressionIsAny, []⟩]
  else []

/-- The `IfStatement, WhileStatement, DoWhileStatement,
ConditionalExpression` handler, lines 403–427: anchored at the test, with
the construct's human-readable label as `kind`. -/
def booleanTestHandler (oracle : Oracle) (test : Expr) (kind : String) :
    List Diagnostic :=
  if isAnyOrAnyArrayType oracle test.tid then
    [⟨Anchor.expr test, MessageId.booleanTestIsAny, [("kind", kind)]⟩]
  else []

/-- The diagnostics of the annotation subtree of a binding, if any. -/
def annotationDiags (oracle : Oracle) : Option TSTypeNode → List Diagnostic
  | some a => runTypeNode oracle a
  | none => []

/-- All diagnostics the traversal emits with anchors at the declarator
node, its binding pattern, or its pattern leaves — i.e. the combined
per-declarator policy of §4.3–§4.5 of the spec: the two `let`/`var`
handlers, the for-of loop-variable handler (when the declarator is the
left of a `for...of`), the three binding-node handlers, and the
empty-array-initialiser handler, in the order the traversal fires them. -/
def declaratorPolicyDiags (opts : Options) (oracle : Oracle) (kind : DeclKind)
    (inForOf : Bool) (d : Declarator) : Except Unit (List Diagnostic) := do
  let idDs ← declaratorIdHandler opts oracle d
  pure (letDeclaratorHandlers kind d
    ++ (if inForOf then forOfDeclaratorHandler oracle d else [])
    ++ idDs
    ++ emptyArrayInitHandler d)

mutual
/-- Pre-order traversal of an expression: fire the handlers matching the
node, then visit its children in ESTree visitor-key order.  On an
`ArrowFunctionExpression`, the source's selector is the literal string
`ArrowFunctionExpression > :not(TSESTree.BlockStatement).body`; esquery
parses `TSESTree.BlockStatement` as a compound of the *type* selector
`TSESTree` and the *field* selector `.BlockStatement`, which no ESTree
node ever satisfies (node types are `BlockStatement` etc., never
`TSESTree`), so the `:not(...)` matches every node and the handler fires
on the arrow's body whether or not it is a block. -/
def runExpr (opts : Options) (oracle : Oracle) : Expr → Except Unit (List Diagnostic)
  | Expr.identifier _ _ => Except.ok []
  | Expr.nullLiteral _ => Except.ok []
  | Expr.otherLiteral _ => Except.ok []
  | Expr.arrayExpression els _ =>
    -- the empty-array handler requires the `.init` position of a
    -- declarator; it is fired from `visitDeclarator`
    runExprs opts oracle els
  | Expr.callExpression callee args _ => do
    let cs ← runExpr opts oracle callee
    let as_ ← runExprs opts oracle args
    pure ((if args.isEmpty then [] else callArgumentsHandler oracle args) ++ cs ++ as_)
  | Expr.assignmentExpression l r tid => do
    let ls ← runExpr opts oracle l
    let rs ← runExpr opts oracle r
    pure ((if isAnyOrAnyArrayType oracle r.tid then
        [⟨Anchor.expr (Expr.assignmentExpression l r tid),
          MessageId.assignmentValueIsAny, []⟩]
      else []) ++ ls ++ rs)
  | Expr.updateExpression a tid => do
    let as_ ← runExpr opts oracle a
    pure (updateExpressionHandler oracle a tid ++ as_)
  | Expr.conditionalExpression t c a _ => do
    let ts ← runExpr opts oracle t
    let cs ← runExpr opts oracle c
    let as_ ← runExpr opts oracle a
    pure (booleanTestHandler oracle t "ternary" ++ ts ++ cs ++ as_)
  | Expr.arrowFunctionExpression (ArrowBody.exprBody e) _ => do
    let es ← runExpr opts oracle e
    pure ((if isAnyOrAnyArrayType oracle e.tid then
        [⟨Anchor.expr e, MessageId.returnAny, []⟩]
      else []) ++ es)
  | Expr.arrowFunctionExpression (ArrowBody.blockBody stmts btid) _ => do
    -- see the doc comment: the handler also fires on a block body, and
    -- queries the block node's type
    let bs ← runStmts opts oracle stmts
    pure ((if isAnyOrAnyArrayType oracle btid then
        [⟨Anchor.arrowBody (ArrowBody.blockBody stmts btid),
          MessageId.returnAny, []⟩]
      else []) ++ bs)
  termination_by e => sizeOf e

/-- Traversal of an expression list, in source order. -/
def runExprs (opts : Options) (oracle : Oracle) :
    List Expr → Except Unit (List Diagnostic)
  | [] => Except.ok []
  | e :: rest => do
    let ds ← runExpr opts oracle e
    let rs ← runExprs opts oracle rest
    pure (ds ++ rs)
  termination_by es => sizeOf es

/-- Traversal of a statement list, in source order. -/
def runStmts (opts : Options) (oracle : Oracle) :
    List Stmt → Except Unit (List Diagnostic)
  | [] => Except.ok []
  | s :: rest => do
    let ds ← runStmt opts oracle s
    let rs ← runStmts opts oracle rest
    pure (ds ++ rs)
  termination_by ss => sizeOf ss

/-- Pre-order traversal of a statement.  The `ReturnStatement[argument]`
selector only matches return statements that have an argument, so the
`util.nullThrows` guard inside the handler never fires. -/
def runStmt (opts : Options) (oracle : Oracle) : Stmt → Except Unit (List Diagnostic)
  | Stmt.variableDeclaration kind decls => runDeclarators opts oracle kind false decls
  | Stmt.expressionStatement e => runExpr opts oracle e
  | Stmt.returnStatement none => Except.ok []
  | Stmt.returnStatement (some a) => do
    let as_ ← runExpr opts oracle a
    pure ((if isAnyOrAnyArrayType oracle a.tid then
        [⟨Anchor.stmt (Stmt.returnStatement (some a)), MessageId.returnAny, []⟩]
      else []) ++ as_)
  | Stmt.ifStatement t c none => do
    let ts ← runExpr opts oracle t
    let cs ← runStmt opts oracle c
    pure (booleanTestHandler oracle t "if" ++ ts ++ cs)
  | Stmt.ifStatement t c (some alt) => do
    let ts ← runExpr opts oracle t
    let cs ← runStmt opts oracle c
    let els ← runStmt opts oracle alt
    pure (booleanTestHandler oracle t "if" ++ ts ++ cs ++ els)
  | Stmt.whileStatement t b => do
    let ts ← runExpr opts oracle t
    let bs ← runStmt opts oracle b
    pure (booleanTestHandler oracle t "while" ++ ts ++ bs)
  | Stmt.doWhileStatement b t => do
    -- visitor-key order of `DoWhileStatement` is body, then test
    let bs ← runStmt opts oracle b
    let ts ← runExpr opts oracle t
    pure (booleanTestHandler oracle t "do while" ++ bs ++ ts)
  | Stmt.forOfStatement kind decls right body => do
    let ds ← runDeclarators opts oracle kind true decls
    let rs ← runExpr opts oracle right
    let bs ← runStmt opts oracle body
    pure (ds ++ rs ++ bs)
  | Stmt.switchStatement disc cases => do
    let ds ← runExpr opts oracle disc
    let cs ← runSwitchCases opts oracle cases
    pure ((if isAnyOrAnyArrayType oracle disc.tid then
        [⟨Anchor.expr disc, MessageId.switchDiscriminantIsAny, []⟩]
      else []) ++ ds ++ cs)
  | Stmt.blockStatement body => runStmts opts oracle body
  | Stmt.emptyStatement => Except.ok []
  termination_by s => sizeOf s

/-- Traversal of the declarators of one declaration, in source order;
`inForOf` records whether the declaration is the left of a
`ForOfStatement` (the context the for-of selector requires). -/
def runDeclarators (opts : Options) (oracle : Oracle) (kind : DeclKind)
    (inForOf : Bool) : List Declarator → Except Unit (List Diagnostic)
  | [] => Except.ok []
  | d :: rest => do
    let ds ← visitDeclarator opts oracle kind inForOf d
    let rs ← runDeclarators opts oracle kind inForOf rest
    pure (ds ++ rs)
  termination_by ds => sizeOf ds

/-- Visit of one declarator: the declarator-node handlers fire first, then
the binding node's handlers (at the `id` child), then the annotation
subtree, then the initialiser subtree (where the empty-array handler fires
at the `ArrayExpression` node before its children). -/
def visitDeclarator (opts : Options) (oracle : Oracle) (kind : DeclKind)
    (inForOf : Bool) : Declarator → Except Unit (List Diagnostic)
  | Declarator.mk pid ann none dtid => do
    let d := Declarator.mk pid ann none dtid
    let idDs ← declaratorIdHandler opts oracle d
    pure (letDeclaratorHandlers kind d
      ++ (if inForOf then forOfDeclaratorHandler oracle d else [])
      ++ idDs
      ++ annotationDiags oracle ann
      ++ emptyArrayInitHandler d)
  | Declarator.mk pid ann (some e) dtid => do
    let d := Declarator.mk pid ann (some e) dtid
    let idDs ← declaratorIdHandler opts oracle d
    let initDs ← runExpr opts oracle e
    pure (letDeclaratorHandlers kind d
      ++ (if inForOf then forOfDeclaratorHandler oracle d else [])
      ++ idDs
      ++ annotationDiags oracle ann
      ++ emptyArrayInitHandler d
      ++ initDs)
  termination_by d => sizeOf d

/-- Traversal of the cases of a switch statement: the `SwitchCase[test]`
handler (anchored at the case node) fires on entering a non-default case,
then the test expression and the body are visited. -/
def runSwitchCases (opts : Options) (oracle : Oracle) :
    List SwitchCase → Except Unit (List Diagnostic)
  | [] => Except.ok []
  | SwitchCase.mk none body :: rest => do
    let bs ← runStmts opts oracle body
    let rs ← runSwitchCases opts oracle rest
    pure (bs ++ rs)
  | SwitchCase.mk (some t) body :: rest => do
    let ts ← runExpr opts oracle t
    let bs ← runStmts opts oracle body
    let rs ← runSwitchCases opts oracle rest
    pure ((if isAnyOrAnyArrayType oracle t.tid then
        [⟨Anchor.switchCase (SwitchCase.mk (some t) body),
          MessageId.switchCaseTestIsAny, []⟩]
      else []) ++ ts ++ bs ++ rs)
  termination_by cs => sizeOf cs
end

/-- The whole engine: one traversal of a program (a top-level statement
list) under one options record and one type oracle, returning the ordered
diagnostic sequence, or `.error ()` when a handler throws. -/
def runRule (opts : Options) (oracle : Oracle) (program : List Stmt) :
    Except Unit (List Diagnostic) :=
  runStmts opts oracle program

/-- Test whether a binding is a destructuring pattern (object- or
array-shaped), the subject of the destructuring-pattern policy. -/
def DPat.isDestructuring : DPat → Bool
  | DPat.objectPattern _ => true
  | DPat.arrayPattern _ => true
  | DPat.leaf _ => false

mutual
/-- Whether a pattern contains an elision (a `null` element of an array
pattern) anywhere. -/
def hasElision : DPat → Bool
  | DPat.leaf _ => false
  | DPat.objectPattern props => hasElisionProps props
  | DPat.arrayPattern els => hasElisionElements els
  termination_by p => sizeOf p

/-- Elision search through object-pattern properties. -/
def hasElisionProps : List ObjProp → Bool
  | [] => false
  | ObjProp.property v :: rest => hasElision v || hasElisionProps rest
  | ObjProp.restElement _ :: rest => hasElisionProps rest
  termination_by ps => sizeOf ps

/-- Elision search through array-pattern elements. -/
def hasElisionElements : List (Option DPat) → Bool
  | [] => false
  | none :: _ => true
  | some p :: rest => hasElision p || hasElisionElements rest
  termination_by els => sizeOf els
end

mutual
/-- Modelled from the spec's wording of the destructuring policy (§4.4):
"recursively walk each bound sub-position (object property value, array
element); for every leaf binding whose own resolved type is
`Dynamic`/`DynamicArray`, emit `patternVariableDeclarationInitialisedToAny`
anchored at that leaf".  An elision binds nothing, so it contributes no
report.  This is the specification-side description of the walk, to be
compared with the source-side `checkDestructuringPattern`. -/
def specLeafReports (oracle : Oracle) : DPat → List Diagnostic
  | DPat.leaf tid =>
    if isAnyOrAnyArrayType oracle tid then
      [⟨Anchor.pat (DPat.leaf tid),
        MessageId.patternVariableDeclarationInitialisedToAny, []⟩]
    else []
  | DPat.objectPattern props => specLeafReportsProps oracle props
  | DPat.arrayPattern els => specLeafReportsElements oracle els
  termination_by p => sizeOf p

/-- Spec-side walk of object-pattern properties. -/
def specLeafReportsProps (oracle : Oracle) : List ObjProp → List Diagnostic
  | [] => []
  | ObjProp.property v :: rest =>
    specLeafReports oracle v ++ specLeafReportsProps oracle rest
  | ObjProp.restElement tid :: rest =>
    (if isAnyOrAnyArrayType oracle tid then
      [⟨Anchor.pat (DPat.leaf tid),
        MessageId.patternVariableDeclarationInitialisedToAny, []⟩]
    else []) ++ specLeafReportsProps oracle rest
  termination_by ps => sizeOf ps

/-- Spec-side walk of array-pattern elements: elisions are skipped. -/
def specLeafReportsElements (oracle : Oracle) : List (Option DPat) → List Diagnostic
  | [] => []
  | none :: rest => specLeafReportsElements oracle rest
  | some p :: rest =>
    specLeafReports oracle p ++ specLeafReportsElements oracle rest
  termination_by els => sizeOf els
end

/-- The fixed enumerated set of the 14 message identifiers (§6 of the
spec's wire-contract table). -/
def allMessageIds : List MessageId :=
  [MessageId.typeReferenceResolvesToAny,
   MessageId.variableDeclarationInitialisedToAnyWithoutAnnotation,
   MessageId.variableDeclarationInitialisedToAnyWithAnnotation,
   MessageId.patternVariableDeclarationInitialisedToAny,
   MessageId.letVariableInitialisedToNullishAndNoAnnotation,
   MessageId.letVariableWithNoInitialAndNoAnnotation,
   MessageId.loopVariableInitialisedToAny,
   MessageId.returnAny,
   MessageId.passedArgumentIsAny,
   MessageId.assignmentValueIsAny,
   MessageId.updateExpressionIsAny,
   MessageId.booleanTestIsAny,
   MessageId.switchDiscriminantIsAny,
   MessageId.switchCaseTestIsAny]

/-- The data keys the wire contract requires for each message id:
`typeReferenceResolvesToAny` carries `typeName`; the two implicit-`any`
binding messages carry `kind`; `booleanTestIsAny` carries `kind` drawn
from the four construct labels; every other message needs no data. -/
def requiredDataOk (g : Diagnostic) : Bool :=
  match g.messageId with
  | MessageId.typeReferenceResolvesToAny => (List.lookup "typeName" g.data).isSome
  | MessageId.letVariableInitialisedToNullishAndNoAnnotation =>
    (List.lookup "kind" g.data).isSome
  | MessageId.letVariableWithNoInitialAndNoAnnotation =>
    (List.lookup "kind" g.data).isSome
  | MessageId.booleanTestIsAny =>
    match List.lookup "kind" g.data with
    | some k => k == "if" || k == "while" || k == "do while" || k == "ternary"
    | none => false
  | _ => true

/-- All diagnostics of a list satisfy the wire contract. -/
def DataOk (ds : List Diagnostic) : Prop :=
  ∀ g ∈ ds, requiredDataOk g = true

/-! ## Theorems -/

/-- C10: the claim states that the recursive destructuring walk is total
over every well-formed binding pattern, in particular that on an array
pattern with an elision (`const [, x] = v;`, the hole being a `null`
element of `elements`) the walk completes normally.  The code violates
this: `checkDestructuringPattern` is called with the `null` element and
immediately dereferences `node.type` on `null`, throwing a `TypeError`
that aborts the traversal.  This theorem evaluates the engine at the
failing input `const [, x] = v;` where `v` resolves to a concrete type
(so the per-leaf walk is reached): the whole run aborts. -/
theorem c10_elision_aborts_traversal :
    runRule ⟨false⟩ (fun _ => TypeDescriptor.Concrete)
      [Stmt.variableDeclaration DeclKind.kconst
        [Declarator.mk (DPat.arrayPattern [none, some (DPat.leaf 1)]) none
          (some (Expr.identifier "v" 2)) 0]] = Except.error () := by
  simp [runRule, runStmts, runStmt, runDeclarators, visitDeclarator,
    declaratorIdHandler, checkDestructuringPattern, checkDestructuringElements,
    isAnyOrAnyArrayType, isAnyType, isAnyArrayType, letDeclaratorHandlers,
    DeclKind.isLetOrVar, Declarator.init, Declarator.id, emptyArrayInitHandler,
    annotationDiags, Expr.tid, bind, Except.bind, isEmptyArrayLiteral]

/-- C5: the claim states that the expression-body trigger of the
`returnAny` policy never fires on a block body.  The code violates this:
its selector is the literal string `ArrowFunctionExpression >
:not(TSESTree.BlockStatement).body`, and esquery parses
`TSESTree.BlockStatement` as type selector `TSESTree` compounded with
field selector `.BlockStatement`, which no node matches — so the `:not`
matches everything and the handler fires on every arrow-function body,
blocks included.  The TypeScript checker resolves a `Block` node (which is
neither an expression nor a type node) to its intrinsic error type, which
carries `TypeFlags.Any`, so `isAnyType` is true for the block.  This
theorem evaluates the engine at the failing input `() => {}` with an
oracle mirroring that checker behaviour (the block's query id 5 resolves
to `Dynamic`, everything else concrete): a `returnAny` diagnostic is
emitted, anchored at the block body. -/
theorem c5_block_body_triggers_returnAny :
    runRule ⟨false⟩
      (fun t => if t = 5 then TypeDescriptor.Dynamic else TypeDescriptor.Concrete)
      [Stmt.expressionStatement
        (Expr.arrowFunctionExpression (ArrowBody.blockBody [] 5) 9)]
      = Except.ok [⟨Anchor.arrowBody (ArrowBody.blockBody [] 5),
          MessageId.returnAny, []⟩] := by
  simp [runRule, runStmts, runStmt, runExpr, isAnyOrAnyArrayType, isAnyType,
    isAnyArrayType, bind, Except.bind, pure, Except.pure]

/-- C9: the engine is a pure, deterministic function of its inputs — two
invocations on the same tree, oracle and configuration produce identical
diagnostic sequences.  In this embedding `runRule` is a mathematical
function of exactly these three inputs (the source's `create` closure
holds no state that outlives one invocation and the rule module has no
module-level mutable state), so equal inputs give equal outputs. -/
theorem c9_pure_deterministic (opts opts' : Options) (oracle oracle' : Oracle)
    (p p' : List Stmt) (ho : opts = opts') (hr : oracle = oracle')
    (hp : p = p') : runRule opts oracle p = runRule opts' oracle' p' := by
  subst ho hr hp; rfl

/-- Witness for C9 at a concrete input. -/
theorem c9_pure_deterministic_witness :
    runRule ⟨false⟩ (fun _ => TypeDescriptor.Dynamic)
        [Stmt.returnStatement (some (Expr.identifier "x" 0))]
      = runRule ⟨false⟩ (fun _ => TypeDescriptor.Dynamic)
        [Stmt.returnStatement (some (Expr.identifier "x" 0))] :=
  c9_pure_deterministic _ _ _ _ _ _ rfl rfl rfl

/-- C7: at an update expression the traversal emits `updateExpressionIsAny`
if and only if the operand's resolved type is `Dynamic`; an operand
resolving to `DynamicArray` produces nothing, unlike the disjunctive
`isAnyOrAnyArrayType` check of most other policies.  Stated for an
identifier operand (the shape the `++`/`--` grammar admits), at the
traversal function itself. -/
theorem c7_update_expression_scalar_only (opts : Options) (oracle : Oracle)
    (name : String) (itid tid : Nat) :
    (oracle itid = TypeDescriptor.Dynamic →
      runExpr opts oracle (Expr.updateExpression (Expr.identifier name itid) tid)
        = Except.ok [⟨Anchor.expr (Expr.updateExpression (Expr.identifier name itid) tid),
            MessageId.updateExpressionIsAny, []⟩])
    ∧ (oracle itid ≠ TypeDescriptor.Dynamic →
      runExpr opts oracle (Expr.updateExpression (Expr.identifier name itid) tid)
        = Except.ok []) := by
  constructor <;> intro h <;>
    simp [runExpr, updateExpressionHandler, isAnyType, Expr.tid, h, bind,
      Except.bind, pure, Except.pure]

/-- Witness for C7: both conjuncts at concrete inputs — a `Dynamic` operand
reports, a `DynamicArray` operand does not. -/
theorem c7_update_expression_scalar_only_witness :
    runExpr ⟨false⟩ (fun _ => TypeDescriptor.Dynamic)
        (Expr.updateExpression (Expr.identifier "x" 0) 1)
      = Except.ok [⟨Anchor.expr (Expr.updateExpression (Expr.identifier "x" 0) 1),
          MessageId.updateExpressionIsAny, []⟩]
    ∧ runExpr ⟨false⟩ (fun _ => TypeDescriptor.DynamicArray)
        (Expr.updateExpression (Expr.identifier "x" 0) 1)
      = Except.ok [] :=
  ⟨(c7_update_expression_scalar_only ⟨false⟩ (fun _ => TypeDescriptor.Dynamic)
      "x" 0 1).1 rfl,
   (c7_update_expression_scalar_only ⟨false⟩ (fun _ => TypeDescriptor.DynamicArray)
      "x" 0 1).2 (by decide)⟩

/-- C6: a call with `M ≥ 1` arguments of which exactly `N` resolve to
`Dynamic`/`DynamicArray` yields exactly `N` `passedArgumentIsAny`
diagnostics from the call's handler, each anchored at its own argument
expression, in argument order: the handler's output is precisely the list
of dynamic arguments, in order, each mapped to its diagnostic. -/
theorem c6_call_arguments (oracle : Oracle) (arguments : List Expr)
    (h : 0 < arguments.length) :
    callArgumentsHandler oracle arguments
      = (arguments.filter fun a => isAnyOrAnyArrayType oracle a.tid).map
          (fun a => ⟨Anchor.expr a, MessageId.passedArgumentIsAny, []⟩)
    ∧ (callArgumentsHandler oracle arguments).length
      = (arguments.filter fun a => isAnyOrAnyArrayType oracle a.tid).length := by
  have key : ∀ l : List Expr, callArgumentsHandler oracle l
      = (l.filter fun a => isAnyOrAnyArrayType oracle a.tid).map
          (fun a => ⟨Anchor.expr a, MessageId.passedArgumentIsAny, []⟩) := by
    intro l
    induction l with
    | nil => rfl
    | cons a rest ih =>
      by_cases ha : isAnyOrAnyArrayType oracle a.tid <;>
        simp [callArgumentsHandler, List.filterMap, ha, List.filter] at ih ⊢ <;>
        exact ih
  refine ⟨key arguments, ?_⟩
  rw [key arguments, List.length_map]

/-- Witness for C6: `f(dyn1, concrete2, dyn3)` — two diagnostics, anchored
at arguments 1 and 3, in order. -/
theorem c6_call_arguments_witness :
    callArgumentsHandler
        (fun t => if t = 1 then TypeDescriptor.Dynamic
          else if t = 3 then TypeDescriptor.DynamicArray
          else TypeDescriptor.Concrete)
        [Expr.identifier "a" 1, Expr.identifier "b" 2, Expr.identifier "c" 3]
      = ([Expr.identifier "a" 1, Expr.identifier "b" 2, Expr.identifier "c" 3].filter
          fun a => isAnyOrAnyArrayType
            (fun t => if t = 1 then TypeDescriptor.Dynamic
              else if t = 3 then TypeDescriptor.DynamicArray
              else TypeDescriptor.Concrete) a.tid).map
          (fun a => ⟨Anchor.expr a, MessageId.passedArgumentIsAny, []⟩)
    ∧ (callArgumentsHandler
        (fun t => if t = 1 then TypeDescriptor.Dynamic
          else if t = 3 then TypeDescriptor.DynamicArray
          else TypeDescriptor.Concrete)
        [Expr.identifier "a" 1, Expr.identifier "b" 2, Expr.identifier "c" 3]).length
      = ([Expr.identifier "a" 1, Expr.identifier "b" 2, Expr.identifier "c" 3].filter
          fun a => isAnyOrAnyArrayType
            (fun t => if t = 1 then TypeDescriptor.Dynamic
              else if t = 3 then TypeDescriptor.DynamicArray
              else TypeDescriptor.Concrete) a.tid).length :=
  c6_call_arguments _ _ (by decide)

/-- C4: a binding declared with a mutable kind (`let`/`var`) and lacking a
type annotation gets, during the visit of its declarator, (i) with no
initialiser: exactly the one diagnostic
`letVariableWithNoInitialAndNoAnnotation` with `kind` the declaration
keyword; (ii) with a `null`-literal or `undefined`-identifier initialiser:
exactly the one diagnostic
`letVariableInitialisedToNullishAndNoAnnotation` with `kind` the keyword —
in particular no initialiser-type diagnostic for the same declarator.  The
second part carries the type-checker fact that a `null` literal resolves
to the `Null` type and the `undefined` identifier to the `undefined` type,
never to an `Any`-flagged type, as the hypothesis
`isAnyOrAnyArrayType oracle e.tid = false`. -/
theorem c4_mutable_unannotated_bindings (opts : Options) (oracle : Oracle)
    (kind : DeclKind) (tidId dtid : Nat) (hk : kind.isLetOrVar = true) :
    (declaratorPolicyDiags opts oracle kind false
        (Declarator.mk (DPat.leaf tidId) none none dtid)
      = Except.ok [⟨Anchor.declarator (Declarator.mk (DPat.leaf tidId) none none dtid),
          MessageId.letVariableWithNoInitialAndNoAnnotation,
          [("kind", kind.text)]⟩])
    ∧ (∀ e : Expr, (isNullLiteral e || isUndefinedIdentifier e) = true →
        isAnyOrAnyArrayType oracle e.tid = false →
        declaratorPolicyDiags opts oracle kind false
            (Declarator.mk (DPat.leaf tidId) none (some e) dtid)
          = Except.ok [⟨Anchor.declarator
              (Declarator.mk (DPat.leaf tidId) none (some e) dtid),
              MessageId.letVariableInitialisedToNullishAndNoAnnotation,
              [("kind", kind.text)]⟩]) := by
  constructor
  · simp [declaratorPolicyDiags, letDeclaratorHandlers, hk, declaratorIdHandler,
      emptyArrayInitHandler, Declarator.init, Declarator.typeAnnot,
      bind, Except.bind, pure, Except.pure]
  · intro e hnull hreal
    cases e <;> simp [isNullLiteral, isUndefinedIdentifier] at hnull <;>
      simp_all [declaratorPolicyDiags, letDeclaratorHandlers, hk, declaratorIdHandler,
        emptyArrayInitHandler, Declarator.init, Declarator.typeAnnot,
        Declarator.id, isNullLiteral, isUndefinedIdentifier, isEmptyArrayLiteral,
        Expr.tid, isAnyOrAnyArrayType, bind, Except.bind, pure, Except.pure]

/-- Witness for C4: `let x;` and `let y = null;` with a concrete-typed
oracle. -/
theorem c4_mutable_unannotated_bindings_witness :
    (declaratorPolicyDiags ⟨false⟩ (fun _ => TypeDescriptor.Concrete)
        DeclKind.klet false (Declarator.mk (DPat.leaf 0) none none 1)
      = Except.ok [⟨Anchor.declarator (Declarator.mk (DPat.leaf 0) none none 1),
          MessageId.letVariableWithNoInitialAndNoAnnotation,
          [("kind", DeclKind.klet.text)]⟩])
    ∧ (declaratorPolicyDiags ⟨false⟩ (fun _ => TypeDescriptor.Concrete)
        DeclKind.klet false
          (Declarator.mk (DPat.leaf 0) none (some (Expr.nullLiteral 2)) 1)
      = Except.ok [⟨Anchor.declarator
          (Declarator.mk (DPat.leaf 0) none (some (Expr.nullLiteral 2)) 1),
          MessageId.letVariableInitialisedToNullishAndNoAnnotation,
          [("kind", DeclKind.klet.text)]⟩]) :=
  ⟨(c4_mutable_unannotated_bindings ⟨false⟩ (fun _ => TypeDescriptor.Concrete)
      DeclKind.klet 0 1 rfl).1,
   (c4_mutable_unannotated_bindings ⟨false⟩ (fun _ => TypeDescriptor.Concrete)
      DeclKind.klet 0 1 rfl).2 (Expr.nullLiteral 2) rfl (by decide)⟩

/-- C2: a declarator whose initialiser is the empty array literal `[]`:
(i) with no type annotation, the visit of the declarator emits exactly the
one diagnostic `variableDeclarationInitialisedToAnyWithoutAnnotation`,
whatever the declaration kind and the configuration flag (the hypothesis
`isAnyOrAnyArrayType oracle atid = false` carries the type-checker fact
that an uncontextualised `[]` is inferred as `never[]`, never as an
`Any`-flagged type); (ii) with an annotation the empty-array policy emits
nothing, and (iii) that policy can never emit
`variableDeclarationInitialisedToAnyWithAnnotation` for any input. -/
theorem c2_empty_array_initialiser (opts : Options) (oracle : Oracle)
    (kind : DeclKind) (tidId atid dtid : Nat) :
    ((hreal : isAnyOrAnyArrayType oracle atid = false) →
      declaratorPolicyDiags opts oracle kind false
          (Declarator.mk (DPat.leaf tidId) none
            (some (Expr.arrayExpression [] atid)) dtid)
        = Except.ok [⟨Anchor.declarator (Declarator.mk (DPat.leaf tidId) none
            (some (Expr.arrayExpression [] atid)) dtid),
            MessageId.variableDeclarationInitialisedToAnyWithoutAnnotation, []⟩])
    ∧ (∀ a : TSTypeNode,
        emptyArrayInitHandler (Declarator.mk (DPat.leaf tidId) (some a)
          (some (Expr.arrayExpression [] atid)) dtid) = [])
    ∧ (∀ d : Declarator, ∀ g ∈ emptyArrayInitHandler d,
        g.messageId ≠ MessageId.variableDeclarationInitialisedToAnyWithAnnotation) := by
  refine ⟨?_, ?_, ?_⟩
  · intro hreal
    simp [isAnyOrAnyArrayType] at hreal
    cases kind <;>
      simp [declaratorPolicyDiags, letDeclaratorHandlers, DeclKind.isLetOrVar,
        declaratorIdHandler, emptyArrayInitHandler, Declarator.init,
        Declarator.typeAnnot, Declarator.id, isNullLiteral,
        isUndefinedIdentifier, isEmptyArrayLiteral, Expr.tid, hreal,
        bind, Except.bind, pure, Except.pure]
  · intro a
    simp [emptyArrayInitHandler, Declarator.init, Declarator.typeAnnot,
      isEmptyArrayLiteral]
  · rintro ⟨pid, ann, init, dtid'⟩ g hg
    cases init with
    | none => simp [emptyArrayInitHandler, Declarator.init] at hg
    | some e =>
      by_cases he : isEmptyArrayLiteral e
      · cases ann <;>
          simp [emptyArrayInitHandler, Declarator.init, Declarator.typeAnnot,
            he] at hg
        · rw [hg]; simp
      · simp [emptyArrayInitHandler, Declarator.init, he] at hg

mutual
/-- On an elision-free pattern, the source's walk terminates normally and
produces exactly the spec-side per-leaf reports. -/
theorem checkDestructuringPattern_eq_spec (oracle : Oracle) :
    ∀ p : DPat, hasElision p = false →
      checkDestructuringPattern oracle (some p)
        = Except.ok (specLeafReports oracle p)
  | DPat.leaf tid, _ => by
    simp only [checkDestructuringPattern, specLeafReports]
    by_cases hd : isAnyOrAnyArrayType oracle tid <;> simp [hd]
  | DPat.objectPattern props, h => by
    simp only [checkDestructuringPattern, specLeafReports]
    exact checkDestructuringProps_eq_spec oracle props (by simpa [hasElision] using h)
  | DPat.arrayPattern els, h => by
    simp only [checkDestructuringPattern, specLeafReports]
    exact checkDestructuringElements_eq_spec oracle els (by simpa [hasElision] using h)
  termination_by p => sizeOf p

/-- Property-list case of `checkDestructuringPattern_eq_spec`. -/
theorem checkDestructuringProps_eq_spec (oracle : Oracle) :
    ∀ ps : List ObjProp, hasElisionProps ps = false →
      checkDestructuringProps oracle ps
        = Except.ok (specLeafReportsProps oracle ps)
  | [], _ => by simp only [checkDestructuringProps, specLeafReportsProps]
  | ObjProp.property v :: rest, h => by
    have h2 : hasElision v = false ∧ hasElisionProps rest = false := by
      simpa [hasElisionProps, Bool.or_eq_true] using h
    simp only [checkDestructuringProps, specLeafReportsProps]
    rw [checkDestructuringPattern_eq_spec oracle v h2.1,
      checkDestructuringProps_eq_spec oracle rest h2.2]
    simp [bind, Except.bind, pure, Except.pure]
  | ObjProp.restElement tid :: rest, h => by
    have h2 : hasElisionProps rest = false := by
      simpa [hasElisionProps] using h
    simp only [checkDestructuringProps, specLeafReportsProps]
    rw [checkDestructuringProps_eq_spec oracle rest h2]
    simp [bind, Except.bind, pure, Except.pure]
  termination_by ps => sizeOf ps

/-- Element-list case of `checkDestructuringPattern_eq_spec`. -/
theorem checkDestructuringElements_eq_spec (oracle : Oracle) :
    ∀ els : List (Option DPat), hasElisionElements els = false →
      checkDestructuringElements oracle els
        = Except.ok (specLeafReportsElements oracle els)
  | [], _ => by simp only [checkDestructuringElements, specLeafReportsElements]
  | none :: _, h => by simp [hasElisionElements] at h
  | some p :: rest, h => by
    have h2 : hasElision p = false ∧ hasElisionElements rest = false := by
      simpa [hasElisionElements, Bool.or_eq_true] using h
    simp only [checkDestructuringElements, specLeafReportsElements]
    rw [checkDestructuringPattern_eq_spec oracle p h2.1,
      checkDestructuringElements_eq_spec oracle rest h2.2]
    simp [bind, Except.bind, pure, Except.pure]
  termination_by els => sizeOf els
end

/-- The two `let`/`var` declarator handlers only ever emit the two
implicit-`any` message ids. -/
theorem letDeclaratorHandlers_msgIds (kind : DeclKind) (d : Declarator) :
    ∀ g ∈ letDeclaratorHandlers kind d,
      g.messageId = MessageId.letVariableWithNoInitialAndNoAnnotation
      ∨ g.messageId = MessageId.letVariableInitialisedToNullishAndNoAnnotation := by
  intro g hg
  unfold letDeclaratorHandlers at hg
  by_cases hk : kind.isLetOrVar <;> simp [hk] at hg
  rcases d with ⟨pid, ann, init, dtid⟩
  cases init with
  | none =>
    cases ann <;> simp [Declarator.init, Declarator.typeAnnot] at hg <;>
      simp [hg]
  | some e =>
    cases ann <;> simp [Declarator.init, Declarator.typeAnnot] at hg
    simp [hg.2]

/-- `reportVariableDeclarationInitialisedToAny` only ever emits the two
declaration message ids. -/
theorem reportVariableDeclarationInitialisedToAny_msgIds (opts : Options)
    (d : Declarator) :
    ∀ g ∈ reportVariableDeclarationInitialisedToAny opts d,
      g.messageId = MessageId.variableDeclarationInitialisedToAnyWithoutAnnotation
      ∨ g.messageId = MessageId.variableDeclarationInitialisedToAnyWithAnnotation := by
  intro g hg
  unfold reportVariableDeclarationInitialisedToAny at hg
  cases h : d.typeAnnot with
  | none => rw [h] at hg; simp at hg; simp [hg]
  | some a =>
    rw [h] at hg
    by_cases hf : opts.allowVariableAnnotationFromAny <;> simp [hf] at hg
    by_cases hu : isUnknownAnnotation a <;> simp [hu] at hg
    simp [hg]

/-- The empty-array-initialiser handler only ever emits
`variableDeclarationInitialisedToAnyWithoutAnnotation`. -/
theorem emptyArrayInitHandler_msgIds (d : Declarator) :
    ∀ g ∈ emptyArrayInitHandler d,
      g.messageId = MessageId.variableDeclarationInitialisedToAnyWithoutAnnotation := by
  intro g hg
  unfold emptyArrayInitHandler at hg
  cases h : d.init with
  | none => rw [h] at hg; simp at hg
  | some e =>
    rw [h] at hg
    by_cases he : isEmptyArrayLiteral e <;> simp [he] at hg
    simp [hg.2]

mutual
/-- Every spec-side leaf report carries the pattern message id. -/
theorem specLeafReports_msgId (oracle : Oracle) :
    ∀ p : DPat, ∀ g ∈ specLeafReports oracle p,
      g.messageId = MessageId.patternVariableDeclarationInitialisedToAny
  | DPat.leaf tid => by
    intro g hg
    by_cases hd : isAnyOrAnyArrayType oracle tid <;>
      simp [specLeafReports, hd] at hg
    simp [hg]
  | DPat.objectPattern props => fun g hg =>
    specLeafReportsProps_msgId oracle props g
      (by simpa [specLeafReports] using hg)
  | DPat.arrayPattern els => fun g hg =>
    specLeafReportsElements_msgId oracle els g
      (by simpa [specLeafReports] using hg)
  termination_by p => sizeOf p

/-- Property-list case of `specLeafReports_msgId`. -/
theorem specLeafReportsProps_msgId (oracle : Oracle) :
    ∀ ps : List ObjProp, ∀ g ∈ specLeafReportsProps oracle ps,
      g.messageId = MessageId.patternVariableDeclarationInitialisedToAny
  | [] => by intro g hg; simp [specLeafReportsProps] at hg
  | ObjProp.property v :: rest => by
    intro g hg
    simp only [specLeafReportsProps, List.mem_append] at hg
    rcases hg with hg | hg
    · exact specLeafReports_msgId oracle v g hg
    · exact specLeafReportsProps_msgId oracle rest g hg
  | ObjProp.restElement tid :: rest => by
    intro g hg
    simp only [specLeafReportsProps, List.mem_append] at hg
    rcases hg with hg | hg
    · by_cases hd : isAnyOrAnyArrayType oracle tid <;> simp [hd] at hg
      simp [hg]
    · exact specLeafReportsProps_msgId oracle rest g hg
  termination_by ps => sizeOf ps

/-- Element-list case of `specLeafReports_msgId`. -/
theorem specLeafReportsElements_msgId (oracle : Oracle) :
    ∀ els : List (Option DPat), ∀ g ∈ specLeafReportsElements oracle els,
      g.messageId = MessageId.patternVariableDeclarationInitialisedToAny
  | [] => by intro g hg; simp [specLeafReportsElements] at hg
  | none :: rest => fun g hg =>
    specLeafReportsElements_msgId oracle rest g
      (by simpa [specLeafReportsElements] using hg)
  | some p :: rest => by
    intro g hg
    simp only [specLeafReportsElements, List.mem_append] at hg
    rcases hg with hg | hg
    · exact specLeafReports_msgId oracle p g hg
    · exact specLeafReportsElements_msgId oracle rest g hg
  termination_by els => sizeOf els
end

/-- C3 counterexample: the claim says (a) an overall-dynamic initialiser
yields *exactly one* diagnostic for the whole declaration, and (b)
otherwise one `patternVariableDeclarationInitialisedToAny` per dynamic
leaf.  Both parts fail on the code at explicit inputs: (A) for
`const {a}: T = dyn;` under `allowVariableAnnotationFromAny = true` the
declaration policy emits *zero* diagnostics; (B) for `const [, x] = v;`
with `v` concrete, the per-leaf walk aborts on the elision instead of
emitting the per-leaf reports. -/
theorem c3_counterexample :
    declaratorPolicyDiags ⟨true⟩ (fun _ => TypeDescriptor.Dynamic)
        DeclKind.kconst false
        (Declarator.mk (DPat.objectPattern [ObjProp.property (DPat.leaf 1)])
          (some (TSTypeNode.tsOther [])) (some (Expr.identifier "v" 2)) 0)
      = Except.ok []
    ∧ declaratorPolicyDiags ⟨false⟩ (fun _ => TypeDescriptor.Concrete)
        DeclKind.kconst false
        (Declarator.mk (DPat.arrayPattern [none, some (DPat.leaf 1)]) none
          (some (Expr.identifier "v" 2)) 0)
      = Except.error () := by
  constructor <;>
    simp [declaratorPolicyDiags, letDeclaratorHandlers, DeclKind.isLetOrVar,
      declaratorIdHandler, checkDestructuringPattern, checkDestructuringElements,
      reportVariableDeclarationInitialisedToAny, isUnknownAnnotation,
      emptyArrayInitHandler, Declarator.init, Declarator.id,
      Declarator.typeAnnot, isNullLiteral, isUndefinedIdentifier,
      isEmptyArrayLiteral, isAnyOrAnyArrayType, isAnyType, isAnyArrayType,
      Expr.tid, bind, Except.bind, pure, Except.pure]

/-- C3 as amended: for a destructuring declarator with an initialiser,
(1) if the overall initialiser resolves to `Dynamic`/`DynamicArray`, the
visit emits exactly the output of the declaration-with-initialiser policy
(`reportVariableDeclarationInitialisedToAny`, which by its
annotation/flag rules emits one diagnostic or none) — and never a per-leaf
diagnostic; (2) otherwise, provided the pattern contains no elision (on an
elision the walk aborts, see the counterexample), the visit emits exactly
one `patternVariableDeclarationInitialisedToAny` per dynamic leaf, in walk
order, anchored at the leaves (`specLeafReports`), independent of any
annotation — the surrounding `letDeclaratorHandlers`/`emptyArrayInitHandler`
outputs never carry the pattern message id. -/
theorem c3_amended_destructuring (opts : Options) (oracle : Oracle)
    (kind : DeclKind) (pid : DPat) (ann : Option TSTypeNode) (init : Expr)
    (dtid : Nat) (hdd : pid.isDestructuring = true) :
    (isAnyOrAnyArrayType oracle init.tid = true →
      declaratorPolicyDiags opts oracle kind false
          (Declarator.mk pid ann (some init) dtid)
        = Except.ok (letDeclaratorHandlers kind (Declarator.mk pid ann (some init) dtid)
            ++ reportVariableDeclarationInitialisedToAny opts
                (Declarator.mk pid ann (some init) dtid)
            ++ emptyArrayInitHandler (Declarator.mk pid ann (some init) dtid)))
    ∧ (isAnyOrAnyArrayType oracle init.tid = false → hasElision pid = false →
      declaratorPolicyDiags opts oracle kind false
          (Declarator.mk pid ann (some init) dtid)
        = Except.ok (letDeclaratorHandlers kind (Declarator.mk pid ann (some init) dtid)
            ++ specLeafReports oracle pid
            ++ emptyArrayInitHandler (Declarator.mk pid ann (some init) dtid)))
    ∧ (∀ g ∈ reportVariableDeclarationInitialisedToAny opts
          (Declarator.mk pid ann (some init) dtid),
        g.messageId ≠ MessageId.patternVariableDeclarationInitialisedToAny)
    ∧ (∀ g ∈ specLeafReports oracle pid,
        g.messageId = MessageId.patternVariableDeclarationInitialisedToAny)
    ∧ (∀ g ∈ letDeclaratorHandlers kind (Declarator.mk pid ann (some init) dtid),
        g.messageId ≠ MessageId.patternVariableDeclarationInitialisedToAny)
    ∧ (∀ g ∈ emptyArrayInitHandler (Declarator.mk pid ann (some init) dtid),
        g.messageId ≠ MessageId.patternVariableDeclarationInitialisedToAny) := by
  refine ⟨?_, ?_, ?_, specLeafReports_msgId oracle pid, ?_, ?_⟩
  · intro hdyn
    cases pid <;> simp [DPat.isDestructuring] at hdd <;>
      simp [declaratorPolicyDiags, declaratorIdHandler, Declarator.init,
        Declarator.id, hdyn, bind, Except.bind, pure, Except.pure]
  · intro hnd hne
    cases pid <;> simp [DPat.isDestructuring] at hdd <;>
      simp only [declaratorPolicyDiags, declaratorIdHandler, Declarator.init,
        Declarator.id, hnd, Bool.false_eq_true, if_false, if_neg,
        checkDestructuringPattern_eq_spec oracle _ hne,
        bind, Except.bind, pure, Except.pure] <;>
      simp
  · intro g hg
    rcases reportVariableDeclarationInitialisedToAny_msgIds opts _ g hg with h | h <;>
      simp [h]
  · intro g hg
    rcases letDeclaratorHandlers_msgIds kind _ g hg with h | h <;> simp [h]
  · intro g hg
    rw [emptyArrayInitHandler_msgIds _ g hg]
    simp

/-- Witness for the amended C3 at `const {a, b} = v;` with `a` dynamic and
`b` concrete: one per-leaf diagnostic, anchored at the `a` leaf. -/
theorem c3_amended_destructuring_witness :
    declaratorPolicyDiags ⟨false⟩
        (fun t => if t = 1 then TypeDescriptor.Dynamic else TypeDescriptor.Concrete)
        DeclKind.kconst false
        (Declarator.mk (DPat.objectPattern
            [ObjProp.property (DPat.leaf 1), ObjProp.property (DPat.leaf 2)])
          none (some (Expr.identifier "v" 3)) 0)
      = Except.ok (letDeclaratorHandlers DeclKind.kconst
            (Declarator.mk (DPat.objectPattern
              [ObjProp.property (DPat.leaf 1), ObjProp.property (DPat.leaf 2)])
              none (some (Expr.identifier "v" 3)) 0)
          ++ specLeafReports
              (fun t => if t = 1 then TypeDescriptor.Dynamic else TypeDescriptor.Concrete)
              (DPat.objectPattern
                [ObjProp.property (DPat.leaf 1), ObjProp.property (DPat.leaf 2)])
          ++ emptyArrayInitHandler
              (Declarator.mk (DPat.objectPattern
                [ObjProp.property (DPat.leaf 1), ObjProp.property (DPat.leaf 2)])
                none (some (Expr.identifier "v" 3)) 0)) :=
  ((c3_amended_destructuring ⟨false⟩
      (fun t => if t = 1 then TypeDescriptor.Dynamic else TypeDescriptor.Concrete)
      DeclKind.kconst
      (DPat.objectPattern
        [ObjProp.property (DPat.leaf 1), ObjProp.property (DPat.leaf 2)])
      none (Expr.identifier "v" 3) 0 rfl).2.1 (by decide)
      (by simp [hasElision, hasElisionProps]))

/-- C1: a declarator `<id> = <init>` (identifier binding) whose
initialiser resolves to `Dynamic`/`DynamicArray`:
(i) with no type annotation, the visit of the declarator emits exactly one
`variableDeclarationInitialisedToAnyWithoutAnnotation`, whatever the
declaration kind (the side hypothesis `isEmptyArrayLiteral init = false`
carries the type-checker fact that an initialiser that is an
uncontextualised `[]` — here there is no annotation to contextualise it —
is inferred as `never[]` and thus cannot satisfy the main hypothesis);
(ii) with an annotation and `allowVariableAnnotationFromAny = true`, no
diagnostic; (iii) with an `unknown` annotation and the flag false, no
diagnostic; (iv) with any other annotation and the flag false, exactly one
`variableDeclarationInitialisedToAnyWithAnnotation`. -/
theorem c1_identifier_initialised_to_any (opts : Options) (oracle : Oracle)
    (kind : DeclKind) (tidId dtid : Nat) (init : Expr)
    (hdyn : isAnyOrAnyArrayType oracle init.tid = true) :
    (isEmptyArrayLiteral init = false →
      ∃ ds, declaratorPolicyDiags opts oracle kind false
          (Declarator.mk (DPat.leaf tidId) none (some init) dtid) = Except.ok ds
        ∧ (ds.filter fun g => decide (g.messageId
            = MessageId.variableDeclarationInitialisedToAnyWithoutAnnotation)).length = 1)
    ∧ (∀ a : TSTypeNode, opts.allowVariableAnnotationFromAny = true →
        declaratorPolicyDiags opts oracle kind false
          (Declarator.mk (DPat.leaf tidId) (some a) (some init) dtid) = Except.ok [])
    ∧ (opts.allowVariableAnnotationFromAny = false →
        declaratorPolicyDiags opts oracle kind false
          (Declarator.mk (DPat.leaf tidId) (some TSTypeNode.tsUnknownKeyword)
            (some init) dtid) = Except.ok [])
    ∧ (∀ a : TSTypeNode, opts.allowVariableAnnotationFromAny = false →
        isUnknownAnnotation a = false →
        declaratorPolicyDiags opts oracle kind false
            (Declarator.mk (DPat.leaf tidId) (some a) (some init) dtid)
          = Except.ok [⟨Anchor.declarator
              (Declarator.mk (DPat.leaf tidId) (some a) (some init) dtid),
              MessageId.variableDeclarationInitialisedToAnyWithAnnotation, []⟩]) := by
  have hcond : (!isAnyType oracle init.tid && !isAnyArrayType oracle init.tid) = false := by
    simp [isAnyOrAnyArrayType, Bool.or_eq_true] at hdyn
    rcases hdyn with h | h <;> simp [h]
  refine ⟨?_, ?_, ?_, ?_⟩
  · intro hne
    refine ⟨letDeclaratorHandlers kind
        (Declarator.mk (DPat.leaf tidId) none (some init) dtid)
      ++ [⟨Anchor.declarator (Declarator.mk (DPat.leaf tidId) none (some init) dtid),
          MessageId.variableDeclarationInitialisedToAnyWithoutAnnotation, []⟩], ?_, ?_⟩
    · simp [declaratorPolicyDiags, declaratorIdHandler, Declarator.init,
        Declarator.id, Declarator.typeAnnot, hcond,
        reportVariableDeclarationInitialisedToAny, emptyArrayInitHandler, hne,
        bind, Except.bind, pure, Except.pure]
    · rw [List.filter_append]
      have h1 : (letDeclaratorHandlers kind
          (Declarator.mk (DPat.leaf tidId) none (some init) dtid)).filter
            (fun g => decide (g.messageId
              = MessageId.variableDeclarationInitialisedToAnyWithoutAnnotation)) = [] := by
        rw [List.filter_eq_nil_iff]
        intro g hg
        rcases letDeclaratorHandlers_msgIds _ _ g hg with h | h <;> simp [h]
      rw [h1]
      simp
  · intro a hflag
    simp [declaratorPolicyDiags, declaratorIdHandler, Declarator.init,
      Declarator.id, Declarator.typeAnnot, hcond,
      reportVariableDeclarationInitialisedToAny, emptyArrayInitHandler,
      letDeclaratorHandlers, hflag, bind, Except.bind, pure, Except.pure]
  · intro hflag
    simp [declaratorPolicyDiags, declaratorIdHandler, Declarator.init,
      Declarator.id, Declarator.typeAnnot, hcond,
      reportVariableDeclarationInitialisedToAny, emptyArrayInitHandler,
      letDeclaratorHandlers, isUnknownAnnotation, hflag,
      bind, Except.bind, pure, Except.pure]
  · intro a hflag hunk
    simp [declaratorPolicyDiags, declaratorIdHandler, Declarator.init,
      Declarator.id, Declarator.typeAnnot, hcond,
      reportVariableDeclarationInitialisedToAny, emptyArrayInitHandler,
      letDeclaratorHandlers, hflag, hunk, bind, Except.bind, pure, Except.pure]

/-- Witness for C1 at `const x = dyn;` (case i) and
`const x: SomeType = dyn;` with the flag false (case iv). -/
theorem c1_identifier_initialised_to_any_witness :
    (∃ ds, declaratorPolicyDiags ⟨false⟩ (fun _ => TypeDescriptor.Dynamic)
        DeclKind.kconst false
        (Declarator.mk (DPat.leaf 0) none (some (Expr.identifier "dyn" 2)) 1)
        = Except.ok ds
      ∧ (ds.filter fun g => decide (g.messageId
          = MessageId.variableDeclarationInitialisedToAnyWithoutAnnotation)).length = 1)
    ∧ declaratorPolicyDiags ⟨false⟩ (fun _ => TypeDescriptor.Dynamic)
        DeclKind.kconst false
        (Declarator.mk (DPat.leaf 0) (some (TSTypeNode.tsOther []))
          (some (Expr.identifier "dyn" 2)) 1)
      = Except.ok [⟨Anchor.declarator (Declarator.mk (DPat.leaf 0)
            (some (TSTypeNode.tsOther [])) (some (Expr.identifier "dyn" 2)) 1),
          MessageId.variableDeclarationInitialisedToAnyWithAnnotation, []⟩] :=
  ⟨(c1_identifier_initialised_to_any ⟨false⟩ (fun _ => TypeDescriptor.Dynamic)
      DeclKind.kconst 0 1 (Expr.identifier "dyn" 2) (by decide)).1 (by decide),
   (c1_identifier_initialised_to_any ⟨false⟩ (fun _ => TypeDescriptor.Dynamic)
      DeclKind.kconst 0 1 (Expr.identifier "dyn" 2) (by decide)).2.2.2
      (TSTypeNode.tsOther []) rfl (by decide)⟩

/-- Witness for C2 at `const arr = [];` with the `never[]` oracle. -/
theorem c2_empty_array_initialiser_witness :
    declaratorPolicyDiags ⟨true⟩ (fun _ => TypeDescriptor.Concrete)
        DeclKind.kconst false
        (Declarator.mk (DPat.leaf 0) none (some (Expr.arrayExpression [] 2)) 1)
      = Except.ok [⟨Anchor.declarator (Declarator.mk (DPat.leaf 0) none
          (some (Expr.arrayExpression [] 2)) 1),
          MessageId.variableDeclarationInitialisedToAnyWithoutAnnotation, []⟩] :=
  (c2_empty_array_initialiser ⟨true⟩ (fun _ => TypeDescriptor.Concrete)
    DeclKind.kconst 0 2 1).1 (by decide)

theorem dataOk_nil : DataOk [] := by intro g hg; simp at hg

theorem dataOk_append {a b : List Diagnostic} (ha : DataOk a) (hb : DataOk b) :
    DataOk (a ++ b) := by
  intro g hg
  rcases List.mem_append.mp hg with h | h
  · exact ha g h
  · exact hb g h

theorem dataOk_if {c : Prop} [Decidable c] {a b : List Diagnostic}
    (ha : DataOk a) (hb : DataOk b) : DataOk (if c then a else b) := by
  by_cases h : c <;> simp [h] <;> assumption

theorem tsTypeReferenceHandler_dataOk (oracle : Oracle) (name : String)
    (tid : Nat) : DataOk (tsTypeReferenceHandler oracle name tid) := by
  intro g hg
  unfold tsTypeReferenceHandler at hg
  by_cases h : isAnyType oracle tid <;> simp [h] at hg
  simp [hg, requiredDataOk, List.lookup]

theorem booleanTestHandler_dataOk (oracle : Oracle) (t : Expr) (k : String)
    (hk : k = "if" ∨ k = "while" ∨ k = "do while" ∨ k = "ternary") :
    DataOk (booleanTestHandler oracle t k) := by
  intro g hg
  unfold booleanTestHandler at hg
  by_cases h : isAnyOrAnyArrayType oracle t.tid <;> simp [h] at hg
  rcases hk with h' | h' | h' | h' <;>
    simp [hg, h', requiredDataOk, List.lookup]

theorem letDeclaratorHandlers_dataOk (kind : DeclKind) (d : Declarator) :
    DataOk (letDeclaratorHandlers kind d) := by
  intro g hg
  unfold letDeclaratorHandlers at hg
  by_cases hk : kind.isLetOrVar <;> simp [hk] at hg
  rcases d with ⟨pid, ann, init, dtid⟩
  cases init with
  | none =>
    cases ann <;> simp [Declarator.init, Declarator.typeAnnot] at hg <;>
      simp [hg, requiredDataOk, List.lookup]
  | some e =>
    cases ann <;> simp [Declarator.init, Declarator.typeAnnot] at hg
    simp [hg.2, requiredDataOk, List.lookup]

theorem reportVariableDeclarationInitialisedToAny_dataOk (opts : Options)
    (d : Declarator) :
    DataOk (reportVariableDeclarationInitialisedToAny opts d) := by
  intro g hg
  rcases reportVariableDeclarationInitialisedToAny_msgIds opts d g hg with h | h <;>
    simp [requiredDataOk, h]

theorem emptyArrayInitHandler_dataOk (d : Declarator) :
    DataOk (emptyArrayInitHandler d) := by
  intro g hg
  have hm := emptyArrayInitHandler_msgIds d g hg
  simp [requiredDataOk, hm]

theorem forOfDeclaratorHandler_dataOk (oracle : Oracle) (d : Declarator) :
    DataOk (forOfDeclaratorHandler oracle d) := by
  intro g hg
  unfold forOfDeclaratorHandler at hg
  by_cases h : isAnyOrAnyArrayType oracle d.tid <;> simp [h] at hg
  simp [hg, requiredDataOk]

theorem callArgumentsHandler_dataOk (oracle : Oracle) (args : List Expr) :
    DataOk (callArgumentsHandler oracle args) := by
  intro g hg
  unfold callArgumentsHandler at hg
  rcases List.mem_filterMap.mp hg with ⟨a, -, ha⟩
  by_cases h : isAnyOrAnyArrayType oracle a.tid <;> simp [h] at ha
  simp [← ha, requiredDataOk]

theorem updateExpressionHandler_dataOk (oracle : Oracle) (a : Expr)
    (tid : Nat) : DataOk (updateExpressionHandler oracle a tid) := by
  intro g hg
  unfold updateExpressionHandler at hg
  by_cases h : isAnyType oracle a.tid <;> simp [h] at hg
  simp [hg, requiredDataOk]

mutual
/-- The destructuring walk only emits contract-satisfying diagnostics. -/
theorem checkDestructuringPattern_dataOk (oracle : Oracle) :
    ∀ p : Option DPat, ∀ ds, checkDestructuringPattern oracle p = Except.ok ds →
      DataOk ds
  | none => by intro ds h; simp [checkDestructuringPattern] at h
  | some (DPat.objectPattern props) => by
    intro ds h
    simp only [checkDestructuringPattern] at h
    exact checkDestructuringProps_dataOk oracle props ds h
  | some (DPat.arrayPattern els) => by
    intro ds h
    simp only [checkDestructuringPattern] at h
    exact checkDestructuringElements_dataOk oracle els ds h
  | some (DPat.leaf tid) => by
    intro ds h
    simp only [checkDestructuringPattern] at h
    by_cases hd : isAnyOrAnyArrayType oracle tid <;> simp [hd] at h <;> subst h
    · intro g hg
      simp at hg
      simp [hg, requiredDataOk]
    · exact dataOk_nil
  termination_by p => sizeOf p

/-- Property-list case of `checkDestructuringPattern_dataOk`. -/
theorem checkDestructuringProps_dataOk (oracle : Oracle) :
    ∀ ps : List ObjProp, ∀ ds, checkDestructuringProps oracle ps = Except.ok ds →
      DataOk ds
  | [] => by
    intro ds h
    simp only [checkDestructuringProps] at h
    simp at h
    subst h
    exact dataOk_nil
  | ObjProp.property v :: rest => by
    intro ds h
    simp only [checkDestructuringProps, bind, Except.bind] at h
    cases h1 : checkDestructuringPattern oracle (some v) with
    | error e => rw [h1] at h; simp at h
    | ok ds1 =>
      rw [h1] at h
      cases h2 : checkDestructuringProps oracle rest with
      | error e => rw [h2] at h; simp at h
      | ok ds2 =>
        rw [h2] at h
        simp [pure, Except.pure] at h
        rw [← h]
        exact dataOk_append (checkDestructuringPattern_dataOk oracle _ _ h1)
          (checkDestructuringProps_dataOk oracle rest _ h2)
  | ObjProp.restElement tid :: rest => by
    intro ds h
    simp only [checkDestructuringProps, bind, Except.bind] at h
    cases h2 : checkDestructuringProps oracle rest with
    | error e => rw [h2] at h; simp at h
    | ok ds2 =>
      rw [h2] at h
      simp [pure, Except.pure] at h
      rw [← h]
      refine dataOk_append ?_ (checkDestructuringProps_dataOk oracle rest _ h2)
      intro g hg
      by_cases hd : isAnyOrAnyArrayType oracle tid <;> simp [hd] at hg
      simp [hg, requiredDataOk]
  termination_by ps => sizeOf ps

/-- Element-list case of `checkDestructuringPattern_dataOk`. -/
theorem checkDestructuringElements_dataOk (oracle : Oracle) :
    ∀ els : List (Option DPat), ∀ ds,
      checkDestructuringElements oracle els = Except.ok ds → DataOk ds
  | [] => by
    intro ds h
    simp only [checkDestructuringElements] at h
    simp at h
    subst h
    exact dataOk_nil
  | el :: rest => by
    intro ds h
    simp only [checkDestructuringElements, bind, Except.bind] at h
    cases h1 : checkDestructuringPattern oracle el with
    | error e => rw [h1] at h; simp at h
    | ok ds1 =>
      rw [h1] at h
      cases h2 : checkDestructuringElements oracle rest with
      | error e => rw [h2] at h; simp at h
      | ok ds2 =>
        rw [h2] at h
        simp [pure, Except.pure] at h
        rw [← h]
        exact dataOk_append (checkDestructuringPattern_dataOk oracle _ _ h1)
          (checkDestructuringElements_dataOk oracle rest _ h2)
  termination_by els => sizeOf els
end

mutual
/-- Type-annotation walks only emit contract-satisfying diagnostics. -/
theorem runTypeNode_dataOk (oracle : Oracle) :
    ∀ t : TSTypeNode, DataOk (runTypeNode oracle t)
  | TSTypeNode.tsUnknownKeyword => by
    simp only [runTypeNode]; exact dataOk_nil
  | TSTypeNode.tsTypeReference name tid args => by
    simp only [runTypeNode]
    exact dataOk_append (tsTypeReferenceHandler_dataOk oracle name tid)
      (runTypeNodes_dataOk oracle args)
  | TSTypeNode.tsOther children => by
    simp only [runTypeNode]
    exact runTypeNodes_dataOk oracle children
  termination_by t => sizeOf t

/-- List case of `runTypeNode_dataOk`. -/
theorem runTypeNodes_dataOk (oracle : Oracle) :
    ∀ ts : List TSTypeNode, DataOk (runTypeNodes oracle ts)
  | [] => by simp only [runTypeNodes]; exact dataOk_nil
  | t :: rest => by
    simp only [runTypeNodes]
    exact dataOk_append (runTypeNode_dataOk oracle t)
      (runTypeNodes_dataOk oracle rest)
  termination_by ts => sizeOf ts
end

theorem annotationDiags_dataOk (oracle : Oracle) (ann : Option TSTypeNode) :
    DataOk (annotationDiags oracle ann) := by
  cases ann with
  | none => simp only [annotationDiags]; exact dataOk_nil
  | some a => simp only [annotationDiags]; exact runTypeNode_dataOk oracle a

theorem declaratorIdHandler_dataOk (opts : Options) (oracle : Oracle)
    (d : Declarator) (ds : List Diagnostic)
    (h : declaratorIdHandler opts oracle d = Except.ok ds) : DataOk ds := by
  unfold declaratorIdHandler at h
  cases hi : d.init with
  | none => rw [hi] at h; simp at h; subst h; exact dataOk_nil
  | some init =>
    rw [hi] at h
    cases hid : d.id with
    | leaf tid =>
      rw [hid] at h
      by_cases hc : (!isAnyType oracle init.tid && !isAnyArrayType oracle init.tid) <;>
        simp [hc] at h <;> subst h
      · exact dataOk_nil
      · exact reportVariableDeclarationInitialisedToAny_dataOk opts d
    | objectPattern props =>
      rw [hid] at h
      by_cases hc : isAnyOrAnyArrayType oracle init.tid <;> simp [hc] at h
      · subst h
        exact reportVariableDeclarationInitialisedToAny_dataOk opts d
      · exact checkDestructuringPattern_dataOk oracle _ _ h
    | arrayPattern els =>
      rw [hid] at h
      by_cases hc : isAnyOrAnyArrayType oracle init.tid <;> simp [hc] at h
      · subst h
        exact reportVariableDeclarationInitialisedToAny_dataOk opts d
      · exact checkDestructuringPattern_dataOk oracle _ _ h




theorem dataOk_single {g : Diagnostic} (hg : requiredDataOk g = true) :
    DataOk [g] := by
  intro x hx
  simp at hx
  simp [hx, hg]

theorem dataOk_returnAny (a : Anchor) :
    DataOk [⟨a, MessageId.returnAny, []⟩] := dataOk_single rfl

theorem dataOk_assignment (a : Anchor) :
    DataOk [⟨a, MessageId.assignmentValueIsAny, []⟩] := dataOk_single rfl

theorem dataOk_switchDiscriminant (a : Anchor) :
    DataOk [⟨a, MessageId.switchDiscriminantIsAny, []⟩] := dataOk_single rfl

theorem dataOk_switchCaseTest (a : Anchor) :
    DataOk [⟨a, MessageId.switchCaseTestIsAny, []⟩] := dataOk_single rfl

mutual
/-- Every diagnostic an expression's traversal emits satisfies the data
contract. -/
theorem runExpr_dataOk (opts : Options) (oracle : Oracle) :
    ∀ e : Expr, ∀ ds, runExpr opts oracle e = Except.ok ds → DataOk ds
  | Expr.identifier _ _ => by
    intro ds h; simp only [runExpr] at h; simp at h; subst h; exact dataOk_nil
  | Expr.nullLiteral _ => by
    intro ds h; simp only [runExpr] at h; simp at h; subst h; exact dataOk_nil
  | Expr.otherLiteral _ => by
    intro ds h; simp only [runExpr] at h; simp at h; subst h; exact dataOk_nil
  | Expr.arrayExpression els _ => by
    intro ds h
    simp only [runExpr] at h
    exact runExprs_dataOk opts oracle els ds h
  | Expr.callExpression callee args _ => by
    intro ds h
    simp only [runExpr, bind, Except.bind] at h
    cases h1 : runExpr opts oracle callee with
    | error e => rw [h1] at h; simp at h
    | ok cs =>
      rw [h1] at h
      cases h2 : runExprs opts oracle args with
      | error e => rw [h2] at h; simp at h
      | ok as_ =>
        rw [h2] at h
        simp [pure, Except.pure] at h
        subst h
        exact dataOk_append
          (dataOk_if dataOk_nil (callArgumentsHandler_dataOk oracle args))
          (dataOk_append (runExpr_dataOk opts oracle callee cs h1)
            (runExprs_dataOk opts oracle args as_ h2))
  | Expr.assignmentExpression l r tid => by
    intro ds h
    simp only [runExpr, bind, Except.bind] at h
    cases h1 : runExpr opts oracle l with
    | error e => rw [h1] at h; simp at h
    | ok ls =>
      rw [h1] at h
      cases h2 : runExpr opts oracle r with
      | error e => rw [h2] at h; simp at h
      | ok rs =>
        rw [h2] at h
        simp [pure, Except.pure] at h
        subst h
        exact dataOk_append
          (dataOk_if (dataOk_assignment _) dataOk_nil)
          (dataOk_append (runExpr_dataOk opts oracle l ls h1)
            (runExpr_dataOk opts oracle r rs h2))
  | Expr.updateExpression a tid => by
    intro ds h
    simp only [runExpr, bind, Except.bind] at h
    cases h1 : runExpr opts oracle a with
    | error e => rw [h1] at h; simp at h
    | ok as_ =>
      rw [h1] at h
      simp [pure, Except.pure] at h
      subst h
      exact dataOk_append (updateExpressionHandler_dataOk oracle a tid)
        (runExpr_dataOk opts oracle a as_ h1)
  | Expr.conditionalExpression t c a _ => by
    intro ds h
    simp only [runExpr, bind, Except.bind] at h
    cases h1 : runExpr opts oracle t with
    | error e => rw [h1] at h; simp at h
    | ok ts =>
      rw [h1] at h
      cases h2 : runExpr opts oracle c with
      | error e => rw [h2] at h; simp at h
      | ok cs =>
        rw [h2] at h
        cases h3 : runExpr opts oracle a with
        | error e => rw [h3] at h; simp at h
        | ok as_ =>
          rw [h3] at h
          simp [pure, Except.pure] at h
          subst h
          exact dataOk_append
            (booleanTestHandler_dataOk oracle t "ternary" (by simp))
            (dataOk_append (runExpr_dataOk opts oracle t ts h1)
              (dataOk_append (runExpr_dataOk opts oracle c cs h2)
                (runExpr_dataOk opts oracle a as_ h3)))
  | Expr.arrowFunctionExpression (ArrowBody.exprBody e) _ => by
    intro ds h
    simp only [runExpr, bind, Except.bind] at h
    cases h1 : runExpr opts oracle e with
    | error err => rw [h1] at h; simp at h
    | ok es =>
      rw [h1] at h
      simp [pure, Except.pure] at h
      subst h
      exact dataOk_append (dataOk_if (dataOk_returnAny _) dataOk_nil)
        (runExpr_dataOk opts oracle e es h1)
  | Expr.arrowFunctionExpression (ArrowBody.blockBody stmts btid) _ => by
    intro ds h
    simp only [runExpr, bind, Except.bind] at h
    cases h1 : runStmts opts oracle stmts with
    | error err => rw [h1] at h; simp at h
    | ok bs =>
      rw [h1] at h
      simp [pure, Except.pure] at h
      subst h
      exact dataOk_append (dataOk_if (dataOk_returnAny _) dataOk_nil)
        (runStmts_dataOk opts oracle stmts bs h1)
  termination_by e => sizeOf e

/-- List case of `runExpr_dataOk`. -/
theorem runExprs_dataOk (opts : Options) (oracle : Oracle) :
    ∀ es : List Expr, ∀ ds, runExprs opts oracle es = Except.ok ds → DataOk ds
  | [] => by
    intro ds h; simp only [runExprs] at h; simp at h; subst h; exact dataOk_nil
  | e :: rest => by
    intro ds h
    simp only [runExprs, bind, Except.bind] at h
    cases h1 : runExpr opts oracle e with
    | error err => rw [h1] at h; simp at h
    | ok ds1 =>
      rw [h1] at h
      cases h2 : runExprs opts oracle rest with
      | error err => rw [h2] at h; simp at h
      | ok ds2 =>
        rw [h2] at h
        simp [pure, Except.pure] at h
        subst h
        exact dataOk_append (runExpr_dataOk opts oracle e ds1 h1)
          (runExprs_dataOk opts oracle rest ds2 h2)
  termination_by es => sizeOf es

/-- Statement-list case of `runExpr_dataOk`. -/
theorem runStmts_dataOk (opts : Options) (oracle : Oracle) :
    ∀ ss : List Stmt, ∀ ds, runStmts opts oracle ss = Except.ok ds → DataOk ds
  | [] => by
    intro ds h; simp only [runStmts] at h; simp at h; subst h; exact dataOk_nil
  | s :: rest => by
    intro ds h
    simp only [runStmts, bind, Except.bind] at h
    cases h1 : runStmt opts oracle s with
    | error err => rw [h1] at h; simp at h
    | ok ds1 =>
      rw [h1] at h
      cases h2 : runStmts opts oracle rest with
      | error err => rw [h2] at h; simp at h
      | ok ds2 =>
        rw [h2] at h
        simp [pure, Except.pure] at h
        subst h
        exact dataOk_append (runStmt_dataOk opts oracle s ds1 h1)
          (runStmts_dataOk opts oracle rest ds2 h2)
  termination_by ss => sizeOf ss

/-- Statement case of `runExpr_dataOk`. -/
theorem runStmt_dataOk (opts : Options) (oracle : Oracle) :
    ∀ s : Stmt, ∀ ds, runStmt opts oracle s = Except.ok ds → DataOk ds
  | Stmt.variableDeclaration kind decls => by
    intro ds h
    simp only [runStmt] at h
    exact runDeclarators_dataOk opts oracle kind false decls ds h
  | Stmt.expressionStatement e => by
    intro ds h
    simp only [runStmt] at h
    exact runExpr_dataOk opts oracle e ds h
  | Stmt.returnStatement none => by
    intro ds h; simp only [runStmt] at h; simp at h; subst h; exact dataOk_nil
  | Stmt.returnStatement (some a) => by
    intro ds h
    simp only [runStmt, bind, Except.bind] at h
    cases h1 : runExpr opts oracle a with
    | error err => rw [h1] at h; simp at h
    | ok as_ =>
      rw [h1] at h
      simp [pure, Except.pure] at h
      subst h
      exact dataOk_append (dataOk_if (dataOk_returnAny _) dataOk_nil)
        (runExpr_dataOk opts oracle a as_ h1)
  | Stmt.ifStatement t c none => by
    intro ds h
    simp only [runStmt, bind, Except.bind] at h
    cases h1 : runExpr opts oracle t with
    | error err => rw [h1] at h; simp at h
    | ok ts =>
      rw [h1] at h
      cases h2 : runStmt opts oracle c with
      | error err => rw [h2] at h; simp at h
      | ok cs =>
        rw [h2] at h
        simp [pure, Except.pure] at h
        subst h
        exact dataOk_append (booleanTestHandler_dataOk oracle t "if" (by simp))
          (dataOk_append (runExpr_dataOk opts oracle t ts h1)
            (runStmt_dataOk opts oracle c cs h2))
  | Stmt.ifStatement t c (some alt) => by
    intro ds h
    simp only [runStmt, bind, Except.bind] at h
    cases h1 : runExpr opts oracle t with
    | error err => rw [h1] at h; simp at h
    | ok ts =>
      rw [h1] at h
      cases h2 : runStmt opts oracle c with
      | error err => rw [h2] at h; simp at h
      | ok cs =>
        rw [h2] at h
        cases h3 : runStmt opts oracle alt with
        | error err => rw [h3] at h; simp at h
        | ok es =>
          rw [h3] at h
          simp [pure, Except.pure] at h
          subst h
          exact dataOk_append (booleanTestHandler_dataOk oracle t "if" (by simp))
            (dataOk_append (runExpr_dataOk opts oracle t ts h1)
              (dataOk_append (runStmt_dataOk opts oracle c cs h2)
                (runStmt_dataOk opts oracle alt es h3)))
  | Stmt.whileStatement t b => by
    intro ds h
    simp only [runStmt, bind, Except.bind] at h
    cases h1 : runExpr opts oracle t with
    | error err => rw [h1] at h; simp at h
    | ok ts =>
      rw [h1] at h
      cases h2 : runStmt opts oracle b with
      | error err => rw [h2] at h; simp at h
      | ok bs =>
        rw [h2] at h
        simp [pure, Except.pure] at h
        subst h
        exact dataOk_append (booleanTestHandler_dataOk oracle t "while" (by simp))
          (dataOk_append (runExpr_dataOk opts oracle t ts h1)
            (runStmt_dataOk opts oracle b bs h2))
  | Stmt.doWhileStatement b t => by
    intro ds h
    simp only [runStmt, bind, Except.bind] at h
    cases h1 : runStmt opts oracle b with
    | error err => rw [h1] at h; simp at h
    | ok bs =>
      rw [h1] at h
      cases h2 : runExpr opts oracle t with
      | error err => rw [h2] at h; simp at h
      | ok ts =>
        rw [h2] at h
        simp [pure, Except.pure] at h
        subst h
        exact dataOk_append
          (booleanTestHandler_dataOk oracle t "do while" (by simp))
          (dataOk_append (runStmt_dataOk opts oracle b bs h1)
            (runExpr_dataOk opts oracle t ts h2))
  | Stmt.forOfStatement kind decls right body => by
    intro ds h
    simp only [runStmt, bind, Except.bind] at h
    cases h1 : runDeclarators opts oracle kind true decls with
    | error err => rw [h1] at h; simp at h
    | ok ds1 =>
      rw [h1] at h
      cases h2 : runExpr opts oracle right with
      | error err => rw [h2] at h; simp at h
      | ok rs =>
        rw [h2] at h
        cases h3 : runStmt opts oracle body with
        | error err => rw [h3] at h; simp at h
        | ok bs =>
          rw [h3] at h
          simp [pure, Except.pure] at h
          subst h
          exact dataOk_append
            (runDeclarators_dataOk opts oracle kind true decls ds1 h1)
            (dataOk_append (runExpr_dataOk opts oracle right rs h2)
              (runStmt_dataOk opts oracle body bs h3))
  | Stmt.switchStatement disc cases_ => by
    intro ds h
    simp only [runStmt, bind, Except.bind] at h
    cases h1 : runExpr opts oracle disc with
    | error err => rw [h1] at h; simp at h
    | ok ds1 =>
      rw [h1] at h
      cases h2 : runSwitchCases opts oracle cases_ with
      | error err => rw [h2] at h; simp at h
      | ok cs =>
        rw [h2] at h
        simp [pure, Except.pure] at h
        subst h
        exact dataOk_append
          (dataOk_if (dataOk_switchDiscriminant _) dataOk_nil)
          (dataOk_append (runExpr_dataOk opts oracle disc ds1 h1)
            (runSwitchCases_dataOk opts oracle cases_ cs h2))
  | Stmt.blockStatement body => by
    intro ds h
    simp only [runStmt] at h
    exact runStmts_dataOk opts oracle body ds h
  | Stmt.emptyStatement => by
    intro ds h; simp only [runStmt] at h; simp at h; subst h; exact dataOk_nil
  termination_by s => sizeOf s

/-- Declarator-list case of `runExpr_dataOk`. -/
theorem runDeclarators_dataOk (opts : Options) (oracle : Oracle)
    (kind : DeclKind) (inForOf : Bool) :
    ∀ decls : List Declarator, ∀ ds,
      runDeclarators opts oracle kind inForOf decls = Except.ok ds → DataOk ds
  | [] => by
    intro ds h
    simp only [runDeclarators] at h; simp at h; subst h; exact dataOk_nil
  | d :: rest => by
    intro ds h
    simp only [runDeclarators, bind, Except.bind] at h
    cases h1 : visitDeclarator opts oracle kind inForOf d with
    | error err => rw [h1] at h; simp at h
    | ok ds1 =>
      rw [h1] at h
      cases h2 : runDeclarators opts oracle kind inForOf rest with
      | error err => rw [h2] at h; simp at h
      | ok ds2 =>
        rw [h2] at h
        simp [pure, Except.pure] at h
        subst h
        exact dataOk_append (visitDeclarator_dataOk opts oracle kind inForOf d ds1 h1)
          (runDeclarators_dataOk opts oracle kind inForOf rest ds2 h2)
  termination_by decls => sizeOf decls

/-- Single-declarator case of `runExpr_dataOk`. -/
theorem visitDeclarator_dataOk (opts : Options) (oracle : Oracle)
    (kind : DeclKind) (inForOf : Bool) :
    ∀ d : Declarator, ∀ ds,
      visitDeclarator opts oracle kind inForOf d = Except.ok ds → DataOk ds
  | Declarator.mk pid ann none dtid => by
    intro ds h
    simp only [visitDeclarator, bind, Except.bind] at h
    cases h1 : declaratorIdHandler opts oracle (Declarator.mk pid ann none dtid) with
    | error err => rw [h1] at h; simp at h
    | ok idDs =>
      rw [h1] at h
      simp [pure, Except.pure] at h
      subst h
      exact dataOk_append (letDeclaratorHandlers_dataOk kind _)
        (dataOk_append
          (dataOk_if (forOfDeclaratorHandler_dataOk oracle _) dataOk_nil)
          (dataOk_append (declaratorIdHandler_dataOk opts oracle _ idDs h1)
            (dataOk_append (annotationDiags_dataOk oracle ann)
              (emptyArrayInitHandler_dataOk _))))
  | Declarator.mk pid ann (some e) dtid => by
    intro ds h
    simp only [visitDeclarator, bind, Except.bind] at h
    cases h1 : declaratorIdHandler opts oracle (Declarator.mk pid ann (some e) dtid) with
    | error err => rw [h1] at h; simp at h
    | ok idDs =>
      rw [h1] at h
      cases h2 : runExpr opts oracle e with
      | error err => rw [h2] at h; simp at h
      | ok initDs =>
        rw [h2] at h
        simp [pure, Except.pure] at h
        subst h
        exact dataOk_append (letDeclaratorHandlers_dataOk kind _)
          (dataOk_append
            (dataOk_if (forOfDeclaratorHandler_dataOk oracle _) dataOk_nil)
            (dataOk_append (declaratorIdHandler_dataOk opts oracle _ idDs h1)
              (dataOk_append (annotationDiags_dataOk oracle ann)
                (dataOk_append (emptyArrayInitHandler_dataOk _)
                  (runExpr_dataOk opts oracle e initDs h2)))))
  termination_by d => sizeOf d

/-- Switch-case-list case of `runExpr_dataOk`. -/
theorem runSwitchCases_dataOk (opts : Options) (oracle : Oracle) :
    ∀ cs : List SwitchCase, ∀ ds,
      runSwitchCases opts oracle cs = Except.ok ds → DataOk ds
  | [] => by
    intro ds h
    simp only [runSwitchCases] at h; simp at h; subst h; exact dataOk_nil
  | SwitchCase.mk none body :: rest => by
    intro ds h
    simp only [runSwitchCases, bind, Except.bind] at h
    cases h1 : runStmts opts oracle body with
    | error err => rw [h1] at h; simp at h
    | ok bs =>
      rw [h1] at h
      cases h2 : runSwitchCases opts oracle rest with
      | error err => rw [h2] at h; simp at h
      | ok rs =>
        rw [h2] at h
        simp [pure, Except.pure] at h
        subst h
        exact dataOk_append (runStmts_dataOk opts oracle body bs h1)
          (runSwitchCases_dataOk opts oracle rest rs h2)
  | SwitchCase.mk (some t) body :: rest => by
    intro ds h
    simp only [runSwitchCases, bind, Except.bind] at h
    cases h1 : runExpr opts oracle t with
    | error err => rw [h1] at h; simp at h
    | ok ts =>
      rw [h1] at h
      cases h2 : runStmts opts oracle body with
      | error err => rw [h2] at h; simp at h
      | ok bs =>
        rw [h2] at h
        cases h3 : runSwitchCases opts oracle rest with
        | error err => rw [h3] at h; simp at h
        | ok rs =>
          rw [h3] at h
          simp [pure, Except.pure] at h
          subst h
          exact dataOk_append (dataOk_if (dataOk_switchCaseTest _) dataOk_nil)
            (dataOk_append (runExpr_dataOk opts oracle t ts h1)
              (dataOk_append (runStmts_dataOk opts oracle body bs h2)
                (runSwitchCases_dataOk opts oracle rest rs h3)))
  termination_by cs => sizeOf cs
end

/-- C8: every diagnostic emitted during any (completed) traversal has a
message id in the fixed 14-value set, and carries every data key that id
requires: `typeReferenceResolvesToAny` always has `typeName`;
`letVariableInitialisedToNullishAndNoAnnotation`,
`letVariableWithNoInitialAndNoAnnotation` and `booleanTestIsAny` always
have `kind`, the latter drawn from `if` / `while` / `do while` /
`ternary`; no diagnostic lacks a required interpolation field. -/
theorem c8_diagnostic_contract (opts : Options) (oracle : Oracle)
    (program : List Stmt) (ds : List Diagnostic)
    (h : runRule opts oracle program = Except.ok ds) :
    ∀ g ∈ ds, g.messageId ∈ allMessageIds ∧ requiredDataOk g = true := by
  intro g hg
  refine ⟨?_, runStmts_dataOk opts oracle program ds h g hg⟩
  cases g.messageId <;> simp [allMessageIds]

/-- Witness for C8 at `if (x) {}` with `x` dynamic: the emitted
`booleanTestIsAny` diagnostic carries `kind = "if"`. -/
theorem c8_diagnostic_contract_witness :
    (⟨Anchor.expr (Expr.identifier "x" 0), MessageId.booleanTestIsAny,
        [("kind", "if")]⟩ : Diagnostic).messageId ∈ allMessageIds
    ∧ requiredDataOk (⟨Anchor.expr (Expr.identifier "x" 0),
        MessageId.booleanTestIsAny, [("kind", "if")]⟩ : Diagnostic) = true :=
  c8_diagnostic_contract (Options.mk false) (fun _ => TypeDescriptor.Dynamic)
    [Stmt.ifStatement (Expr.identifier "x" 0) Stmt.emptyStatement none]
    [⟨Anchor.expr (Expr.identifier "x" 0), MessageId.booleanTestIsAny,
      [("kind", "if")]⟩]
    (by simp [runRule, runStmts, runStmt, runExpr, booleanTestHandler,
      isAnyOrAnyArrayType, isAnyType, isAnyArrayType, Expr.tid, bind,
      Except.bind, pure, Except.pure])
    ⟨Anchor.expr (Expr.identifier "x" 0), MessageId.booleanTestIsAny,
      [("kind", "if")]⟩ (by simp)

end NoUnsafeAny
